import Mathlib

/-!
Verification of the adaptive screenshot compression pipeline
(`Base64ImageCompressor` in `packages/bytebotd/src/mcp/compressor.ts`,
`SCREENSHOT_CONFIG` in `packages/bytebotd/src/config/screenshot.config.ts`,
and `ComputerUseService.screenshot` in
`packages/bytebotd/src/computer-use/computer-use.service.ts`).

Modelling conventions:
* Byte buffers are modelled as `List Nat` (one entry per byte); only their
  length matters for sizes.  The base64 transport encoding performed at the
  boundaries of the source functions is a bijection between buffers and
  strings, so it is elided: the model passes the decoded buffers directly
  and the `base64` field of a result holds the output buffer itself.
* JavaScript numbers are modelled as `ℚ`.  All arithmetic the pipeline
  performs on them (floor, addition and subtraction of halves and tenths,
  division by 1024, comparisons) is exact on binary doubles for the
  magnitudes involved, except for the repeated `scale -= 0.1` subtraction,
  where exact rationals make the resize loop run 6 times while doubles make
  it run 7; both counts satisfy the bounds proved below.
* The `sharp` codec is an external capability.  It is modelled as a
  structure of fallible functions (`Except` models a JavaScript `throw`
  propagating through `await`).
* `maxIterations` is modelled as `Nat`: the source types it as `number`,
  but no caller in the repository ever supplies it, so it is always the
  integer default 10; the spec declares it a positive integer.
* The functions suffixed `T` additionally return a ghost trace (the list of
  qualities handed to the encoder, respectively the list of resize-loop
  steps).  The untraced functions, which match the source signatures, are
  their first projections.
-/

namespace ImageCompression

/-- Byte buffer: one list entry per byte; `length` is the byte size. -/
abbrev Buffer := List Nat

/-- Output format union type `'png' | 'jpeg' | 'webp'` of the source. -/
inductive Format where
  | png
  | jpeg
  | webp
deriving DecidableEq

/-- Error thrown by a codec invocation (a JavaScript exception). -/
structure CodecError where
  msg : String
deriving DecidableEq

/-- Result of `sharp(buffer).metadata()`: the fields the pipeline reads.
Either dimension may be absent (`undefined` in the source). -/
structure Metadata where
  width : Option Nat
  height : Option Nat
deriving DecidableEq

/-- The external codec capability (the `sharp` library).  `compressBuffer`
models `Base64ImageCompressor.compressBuffer` (one encode at a given
quality; the format-specific encoder options are internal to the codec),
`resize` models `sharp(b).resize({width, height, fit: 'inside',
withoutEnlargement: true}).toBuffer()`, and `metadata` models
`sharp(b).metadata()`. -/
structure Codec where
  compressBuffer : Buffer → ℚ → Format → Except CodecError Buffer
  resize : Buffer → Option Nat → Option Nat → Except CodecError Buffer
  metadata : Buffer → Except CodecError Metadata

/-- The `CompressionOptions` interface: every field optional. -/
structure CompressionOptions where
  targetSizeKB : Option ℚ := none
  initialQuality : Option ℚ := none
  minQuality : Option ℚ := none
  format : Option Format := none
  maxIterations : Option Nat := none
  maxWidth : Option Nat := none
  maxHeight : Option Nat := none

/-- The `CompressionResult` record.  `base64` holds the output buffer (see
the module comment: the base64 rendering is elided). -/
structure CompressionResult where
  base64 : Buffer
  sizeBytes : Nat
  sizeKB : ℚ
  sizeMB : ℚ
  quality : ℚ
  format : Format
  iterations : Nat
deriving DecidableEq

/-- Construction of the returned record at the end of `compressToSize`. -/
def mkResult (outputBuffer : Buffer) (quality : ℚ) (format : Format)
    (iterations : Nat) : CompressionResult :=
  { base64 := outputBuffer
    sizeBytes := outputBuffer.length
    sizeKB := (outputBuffer.length : ℚ) / 1024
    sizeMB := (outputBuffer.length : ℚ) / (1024 * 1024)
    quality := quality
    format := format
    iterations := iterations }

/-- Loop body of the quality binary search in `compressToSize`:

    while (low <= high && iterations < maxIterations) {
      quality = Math.floor((low + high) / 2);
      outputBuffer = await this.compressBuffer(inputBuffer, quality, format);
      const sizeKB = outputBuffer.length / 1024;
      if (sizeKB <= targetSizeKB) { bestResult = {outputBuffer, quality}; low = quality + 1; }
      else { high = quality - 1; }
      iterations++;
    }

`remaining` is `maxIterations - iterations`; it starts at `maxIterations`
(with `iterations = 0`) and the two counters step together, so
`remaining > 0` is exactly the source condition `iterations < maxIterations`.
The returned triple is (bestResult, iterations, ghost trace of qualities
passed to the encoder). -/
def searchLoop (C : Codec) (inputBuffer : Buffer) (format : Format)
    (targetSizeKB : ℚ) (remaining : Nat) (low high : ℚ) (iterations : Nat)
    (bestResult : Option (Buffer × ℚ)) (trace : List ℚ) :
    Except CodecError (Option (Buffer × ℚ) × Nat × List ℚ) :=
  match remaining with
  | 0 => .ok (bestResult, iterations, trace)
  | remaining' + 1 =>
    if low ≤ high then do
      let quality : ℚ := (⌊(low + high) / 2⌋ : ℤ)
      let outputBuffer ← C.compressBuffer inputBuffer quality format
      let sizeKB : ℚ := (outputBuffer.length : ℚ) / 1024
      if sizeKB ≤ targetSizeKB then
        searchLoop C inputBuffer format targetSizeKB remaining'
          (quality + 1) high (iterations + 1) (some (outputBuffer, quality))
          (trace ++ [quality])
      else
        searchLoop C inputBuffer format targetSizeKB remaining'
          low (quality - 1) (iterations + 1) bestResult (trace ++ [quality])
    else .ok (bestResult, iterations, trace)
termination_by remaining

/-- Traced model of `Base64ImageCompressor.compressToSize` (defaults
`targetSizeKB = 1024`, `initialQuality = 95`, `minQuality = 10`,
`format = 'png'`, `maxIterations = 10`; binary search, then the
lowest-quality fallback encode when no candidate fit).  The second
component is the ghost list of qualities passed to `compressBuffer`, in
call order, fallback included. -/
def compressToSizeT (C : Codec) (inputBuffer : Buffer)
    (options : CompressionOptions) :
    Except CodecError (CompressionResult × List ℚ) := do
  let targetSizeKB := options.targetSizeKB.getD 1024
  let initialQuality := options.initialQuality.getD 95
  let minQuality := options.minQuality.getD 10
  let format := options.format.getD .png
  let maxIterations := options.maxIterations.getD 10
  let (bestResult, iterations, trace) ←
    searchLoop C inputBuffer format targetSizeKB maxIterations
      minQuality initialQuality 0 none []
  match bestResult with
  | none => do
      let outputBuffer ← C.compressBuffer inputBuffer minQuality format
      .ok (mkResult outputBuffer minQuality format iterations,
           trace ++ [minQuality])
  | some (outputBuffer, quality) =>
      .ok (mkResult outputBuffer quality format iterations, trace)

/-- Model of `Base64ImageCompressor.compressToSize` (source signature). -/
def compressToSize (C : Codec) (inputBuffer : Buffer)
    (options : CompressionOptions) : Except CodecError CompressionResult :=
  (compressToSizeT C inputBuffer options).map Prod.fst

/-- JavaScript truthiness of a `number | undefined` value: `undefined` and
`0` are falsy, every other number is truthy. -/
def truthyNat : Option Nat → Bool
  | none => false
  | some n => if n = 0 then false else true

/-- The expression `x || fallback` applied to a `number | undefined`
value `x` (used for `metadata.width || maxWidth`): the fallback is taken
exactly when `x` is falsy. -/
def jsOrNat (x : Option Nat) (fallback : Nat) : Nat :=
  match x with
  | none => fallback
  | some n => if n = 0 then fallback else n

/-- The test `typeof maxD === 'number' && typeof curD === 'number' &&
curD > maxD` used for `exceedsWidth`/`exceedsHeight` (note `0` counts as
a number here, unlike in `truthyNat`). -/
def exceedsDim (maxD curD : Option Nat) : Bool :=
  match maxD, curD with
  | some m, some c => if c > m then true else false
  | _, _ => false

/-- Model of `Base64ImageCompressor.resizeToFitDimensions`: a no-op when
both bounds are falsy or when neither dimension exceeds its bound,
otherwise one fit-inside resize to the bounds. -/
def resizeToFitDimensions (C : Codec) (inputBuffer : Buffer)
    (maxWidth maxHeight : Option Nat) : Except CodecError Buffer :=
  if !truthyNat maxWidth && !truthyNat maxHeight then .ok inputBuffer
  else do
    let md ← C.metadata inputBuffer
    let exceedsWidth := exceedsDim maxWidth md.width
    let exceedsHeight := exceedsDim maxHeight md.height
    if !exceedsWidth && !exceedsHeight then .ok inputBuffer
    else C.resize inputBuffer maxWidth maxHeight

/-- One iteration of the progressive-resize loop, as recorded in the ghost
trace: the scale used, the requested dimensions, the buffer produced by
resizing the constrained buffer, and the quality-search result on it. -/
structure ResizeStep where
  scale : ℚ
  newWidth : Nat
  newHeight : Nat
  buffer : Buffer
  result : CompressionResult
deriving DecidableEq

/-- Dimension requested by the resize loop at a given scale:
`Math.max(Math.floor(original * scale), 1)`. -/
def scaledDim (original : Nat) (scale : ℚ) : Nat :=
  max (⌊(original : ℚ) * scale⌋.toNat) 1

/-- Loop body of the progressive-resize loop in `compressWithResize`:

    while (result.sizeKB > targetSizeKB && scale > 0.3) {
      newWidth = Math.max(Math.floor(originalWidth * scale), 1);
      newHeight = Math.max(Math.floor(originalHeight * scale), 1);
      resizedBuffer = await sharp(constrainedBuffer).resize({...}).toBuffer();
      result = await this.compressToSize(resizedBase64, compressionOptions);
      scale -= 0.1;
    }

The loop is driven by its guard alone: `scale` starts at `9/10` and drops
by `1/10` per iteration, so the guard `scale > 3/10` admits at most six
passes; `fuel` is structural-recursion fuel only, and any value at least
`6` gives the same run (lemma `resizeLoop_fuel_irrelevant` below).  The
accumulator collects the ghost trace of iterations. -/
def resizeLoop (C : Codec) (compressionOptions : CompressionOptions)
    (targetSizeKB : ℚ) (constrainedBuffer : Buffer)
    (originalWidth originalHeight : Nat) (fuel : Nat)
    (result : CompressionResult) (scale : ℚ) (trace : List ResizeStep) :
    Except CodecError (CompressionResult × List ResizeStep) :=
  match fuel with
  | 0 => .ok (result, trace)
  | fuel' + 1 =>
    if result.sizeKB > targetSizeKB ∧ scale > 3/10 then do
      let newWidth := scaledDim originalWidth scale
      let newHeight := scaledDim originalHeight scale
      let resizedBuffer ←
        C.resize constrainedBuffer (some newWidth) (some newHeight)
      let (result', _) ← compressToSizeT C resizedBuffer compressionOptions
      resizeLoop C compressionOptions targetSizeKB constrainedBuffer
        originalWidth originalHeight fuel' result' (scale - 1/10)
        (trace ++ [⟨scale, newWidth, newHeight, resizedBuffer, result'⟩])
    else .ok (result, trace)
termination_by fuel

/-- The rest object `compressionOptions` of the destructuring in
`compressWithResize`: the caller's options without the `targetSizeKB`,
`maxWidth` and `maxHeight` keys (a rest-spread drops the destructured
keys; it does not re-insert their defaulted values). -/
def restOptions (options : CompressionOptions) : CompressionOptions :=
  { options with targetSizeKB := none, maxWidth := none, maxHeight := none }

/-- Traced model of `Base64ImageCompressor.compressWithResize`.  Note the
destructuring

    const { targetSizeKB = 1024, maxWidth = 2048, maxHeight = 2048,
            ...compressionOptions } = options;

so the options object forwarded to `compressToSize` has NO `targetSizeKB`
(nor `maxWidth`/`maxHeight`) key: the quality search runs with its own
default target of 1024 KB whatever target the caller configured.  The
second component is the ghost trace of resize-loop iterations (empty when
the loop is not entered). -/
def compressWithResizeT (C : Codec) (inputBuffer : Buffer)
    (options : CompressionOptions) :
    Except CodecError (CompressionResult × List ResizeStep) := do
  let targetSizeKB := options.targetSizeKB.getD 1024
  let maxWidth := options.maxWidth.getD 2048
  let maxHeight := options.maxHeight.getD 2048
  let compressionOptions := restOptions options
  let constrainedBuffer ←
    resizeToFitDimensions C inputBuffer (some maxWidth) (some maxHeight)
  let (result, _) ← compressToSizeT C constrainedBuffer compressionOptions
  if result.sizeKB > targetSizeKB then do
    let md ← C.metadata constrainedBuffer
    let originalWidth := jsOrNat md.width maxWidth
    let originalHeight := jsOrNat md.height maxHeight
    resizeLoop C compressionOptions targetSizeKB constrainedBuffer
      originalWidth originalHeight 9 result (9/10) []
  else .ok (result, [])

/-- Model of `Base64ImageCompressor.compressWithResize` (source
signature). -/
def compressWithResize (C : Codec) (inputBuffer : Buffer)
    (options : CompressionOptions) : Except CodecError CompressionResult :=
  (compressWithResizeT C inputBuffer options).map Prod.fst

/-! Configuration layer, `packages/bytebotd/src/config/screenshot.config.ts`.
Environment values are `string | undefined`, modelled as `Option String`.
The JavaScript `Number(string)` conversion is abstracted as a parameter
`jsNum : String → Option ℚ` returning `none` exactly when the conversion
yields a non-finite value (`NaN`, `Infinity`, `-Infinity`), since the only
use site tests `Number.isFinite` before anything else. -/

/-- Environment variables read by the screenshot configuration. -/
structure Env where
  SCREENSHOT_COMPRESSION_ENABLED : Option String := none
  SCREENSHOT_TARGET_SIZE_KB : Option String := none
  SCREENSHOT_INITIAL_QUALITY : Option String := none
  SCREENSHOT_MIN_QUALITY : Option String := none
  SCREENSHOT_IMAGE_FORMAT : Option String := none

/-- Model of the config helper `toNumber`: falsy values (`undefined`, the
empty string), non-finite parses and non-positive parses all give the
fallback, otherwise the parsed number. -/
def toNumber (jsNum : String → Option ℚ) (value : Option String)
    (fallback : ℚ) : ℚ :=
  match value with
  | none => fallback
  | some s =>
    if s = "" then fallback
    else
      match jsNum s with
      | none => fallback
      | some parsed => if parsed > 0 then parsed else fallback

/-- Lowercasing of one character, as `String.prototype.toLowerCase`
behaves on the ASCII range (every string this configuration compares
against is ASCII). -/
def asciiLower (c : Char) : Char :=
  if 'A' ≤ c ∧ c ≤ 'Z' then Char.ofNat (c.toNat + 32) else c

/-- Model of `value.toLowerCase()` (ASCII range, see `asciiLower`). -/
def jsToLower (s : String) : String := String.mk (s.data.map asciiLower)

/-- Model of the config helper `toBoolean`: `undefined` gives the
fallback; any present string (the empty string included) is tested,
lowercased, against the accepted list. -/
def toBoolean (value : Option String) (fallback : Bool) : Bool :=
  match value with
  | none => fallback
  | some s => ["1", "true", "yes", "on"].contains (jsToLower s)

/-- Model of the config helper `toCompressionFormat`: falsy values give
the fallback; otherwise the lowercased value is accepted when it is one of
`png`, `jpeg`, `webp`, anything else gives the fallback.  The source
returns the lowercased string itself; this model returns the corresponding
member of the closed `Format` union. -/
def toCompressionFormat (value : Option String) (fallback : Format) :
    Format :=
  match value with
  | none => fallback
  | some s =>
    if s = "" then fallback
    else if jsToLower s = "png" then .png
    else if jsToLower s = "jpeg" then .jpeg
    else if jsToLower s = "webp" then .webp
    else fallback

/-- Model of the `mediaTypeMap` record. -/
def mediaTypeMap : Format → String
  | .png => "image/png"
  | .jpeg => "image/jpeg"
  | .webp => "image/webp"

/-- The shape of the exported `SCREENSHOT_CONFIG` constant. -/
structure ScreenshotConfig where
  compressionEnabled : Bool
  targetSizeKB : ℚ
  initialQuality : ℚ
  minQuality : ℚ
  maxWidth : Nat
  maxHeight : Nat
  format : Format
  mediaType : String

/-- Model of the construction of `SCREENSHOT_CONFIG` from the environment.
`displayWidth`/`displayHeight` stand for `getDisplayWidth()` and
`getDisplayHeight()` from the shared env utilities (they read
`DISPLAY_WIDTH`/`DISPLAY_HEIGHT`, unrelated to the fields verified
here). -/
def screenshotConfig (jsNum : String → Option ℚ) (env : Env)
    (displayWidth displayHeight : Nat) : ScreenshotConfig :=
  let format := toCompressionFormat env.SCREENSHOT_IMAGE_FORMAT .png
  { compressionEnabled :=
      toBoolean env.SCREENSHOT_COMPRESSION_ENABLED true
    targetSizeKB := toNumber jsNum env.SCREENSHOT_TARGET_SIZE_KB 512
    initialQuality := toNumber jsNum env.SCREENSHOT_INITIAL_QUALITY 85
    minQuality := toNumber jsNum env.SCREENSHOT_MIN_QUALITY 40
    maxWidth := displayWidth
    maxHeight := displayHeight
    format := format
    mediaType := mediaTypeMap format }

/-- Numeric value of a list of decimal digit characters. -/
def digitsVal (l : List Char) : Nat :=
  l.foldl (fun acc c => 10 * acc + (c.toNat - 48)) 0

/-- Concrete instance of JavaScript `Number()` restricted to the shapes
the concrete environments below use: strings of decimal digits parse to
the denoted natural number, everything else is treated as non-finite. -/
def jsNumDigits (s : String) : Option ℚ :=
  if s ≠ "" ∧ s.data.all (fun c => '0' ≤ c ∧ c ≤ '9') then
    some (digitsVal s.data : ℕ)
  else none

/-! Screenshot operation, `ComputerUseService.screenshot`. -/

/-- Return value of the screenshot operation: the image payload (a buffer;
its base64 rendering is elided, see the module comment) and the media
type. -/
structure ScreenshotOut where
  image : Buffer
  mediaType : String
deriving DecidableEq

/-- The options object the screenshot operation passes to
`compressWithResize`, built from `SCREENSHOT_CONFIG`. -/
def screenshotOptions (cfg : ScreenshotConfig) : CompressionOptions :=
  { targetSizeKB := some cfg.targetSizeKB
    initialQuality := some cfg.initialQuality
    minQuality := some cfg.minQuality
    maxWidth := some cfg.maxWidth
    maxHeight := some cfg.maxHeight
    format := some cfg.format
    maxIterations := none }

/-- Model of `ComputerUseService.screenshot`: the captured frame is
returned unprocessed when compression is disabled; otherwise the pipeline
runs and a thrown error is caught, logged, and answered with the original
uncompressed frame (the `catch` branch of the source). -/
def screenshot (C : Codec) (cfg : ScreenshotConfig) (frame : Buffer) :
    ScreenshotOut :=
  if cfg.compressionEnabled = false then
    { image := frame, mediaType := cfg.mediaType }
  else
    match compressWithResize C frame (screenshotOptions cfg) with
    | .ok compressed => { image := compressed.base64, mediaType := cfg.mediaType }
    | .error _ => { image := frame, mediaType := cfg.mediaType }

/-! Concrete codec instances and inputs used by the verification
instances below.  Each `cNCodec` is a (total or failing) instantiation of
the external codec capability with byte-counts chosen to exercise one
behaviour of the pipeline. -/

/-- Codec whose encoder always emits 800 bytes at any quality. -/
def c1Codec : Codec :=
  { compressBuffer := fun _ _ _ => .ok (List.replicate 800 0)
    resize := fun _ _ _ => .ok [1]
    metadata := fun _ => .ok ⟨some 100, some 100⟩ }

/-- Options configuring a target of `400/1024` KB (400 bytes) with the
quality interval 10..11. -/
def c1Options : CompressionOptions :=
  { targetSizeKB := some (400/1024), initialQuality := some 11,
    minQuality := some 10 }

/-- Codec whose encoder emits 3 bytes for the buffer produced by resizing
to width 9 and 5 bytes for everything else; `resize` records the
requested width in the buffer. -/
def c2Codec : Codec :=
  { compressBuffer := fun b _ _ =>
      if b = [9] then .ok (List.replicate 3 0) else .ok (List.replicate 5 0)
    resize := fun _ w _ => .ok [w.getD 0]
    metadata := fun _ => .ok ⟨some 10, some 10⟩ }

/-- Options: target 2 bytes (unreachable), degenerate quality interval. -/
def c2Opts : CompressionOptions :=
  { targetSizeKB := some (2/1024), minQuality := some 95 }

/-- Options: target 3 bytes (met at the first resized attempt). -/
def c2wOpts : CompressionOptions :=
  { targetSizeKB := some (3/1024), minQuality := some 95 }

/-- The quality-search result of the single resize iteration performed by
`compressWithResizeT c2Codec [0] c2wOpts`. -/
def c2wResult : CompressionResult := mkResult (List.replicate 3 0) 95 .png 1

/-- The resize trace of `compressWithResizeT c2Codec [0] c2wOpts`. -/
def c2wTrace : List ResizeStep := [⟨9/10, 9, 9, [9], c2wResult⟩]

/-- Codec whose encoder always emits 2 bytes. -/
def c3Codec : Codec :=
  { compressBuffer := fun _ _ _ => .ok [0, 0]
    resize := fun _ _ _ => .ok [1]
    metadata := fun _ => .ok ⟨some 10, some 10⟩ }

/-- Options: target 1 byte (unreachable), a budget of one iteration. -/
def c3Opts : CompressionOptions :=
  { targetSizeKB := some (1/1024), maxIterations := some 1 }

/-- Environment whose quality variables violate the spec invariant. -/
def c4Env : Env :=
  { SCREENSHOT_INITIAL_QUALITY := some "50"
    SCREENSHOT_MIN_QUALITY := some "90" }

/-- Codec whose encoder always emits 8 bytes. -/
def c5Codec : Codec :=
  { compressBuffer := fun _ _ _ => .ok (List.replicate 8 0)
    resize := fun _ _ _ => .ok [1]
    metadata := fun _ => .ok ⟨some 10, some 10⟩ }

/-- Result of `compressWithResizeT c5Codec [0] {}` (the 8-byte output fits
the default 1024 KB target, found after the 7 ascending iterations of the
binary search over `[10, 95]`). -/
def c5Result : CompressionResult := mkResult (List.replicate 8 0) 95 .png 7

/-- Codec whose encoder always emits 1 byte. -/
def c6Codec : Codec :=
  { compressBuffer := fun _ _ _ => .ok [0]
    resize := fun _ _ _ => .ok [1]
    metadata := fun _ => .ok ⟨some 10, some 10⟩ }

/-- Options with non-integer quality bounds `40.5 ≤ 40.9` (expressible
through the environment, e.g. `SCREENSHOT_MIN_QUALITY=40.5`). -/
def c6Opts : CompressionOptions :=
  { targetSizeKB := some 1, minQuality := some (81/2),
    initialQuality := some (409/10) }

/-- Total codec whose encoder always emits 2 bytes. -/
def c7Codec : Codec :=
  { compressBuffer := fun _ _ _ => .ok [0, 0]
    resize := fun _ _ _ => .ok [0]
    metadata := fun _ => .ok ⟨some 4, some 4⟩ }

/-- Options: target of 1 byte, below every possible encoder output. -/
def c7Opts : CompressionOptions := { targetSizeKB := some (1/1024) }

/-- Codec whose encoder and resizer always throw. -/
def c8Codec : Codec :=
  { compressBuffer := fun _ _ _ => .error ⟨"codec failure"⟩
    resize := fun _ _ _ => .error ⟨"codec failure"⟩
    metadata := fun _ => .ok ⟨some 5, some 5⟩ }

/-- Screenshot configuration from a default environment on a 100 by 100
display. -/
def c8Cfg : ScreenshotConfig := screenshotConfig jsNumDigits {} 100 100

/-- Codec as `c2Codec` (3 bytes for the width-9 resize, 5 bytes
otherwise). -/
def c9Codec : Codec :=
  { compressBuffer := fun b _ _ =>
      if b = [9] then .ok (List.replicate 3 0) else .ok (List.replicate 5 0)
    resize := fun _ w _ => .ok [w.getD 0]
    metadata := fun _ => .ok ⟨some 10, some 10⟩ }

/-- Options: target 3 bytes, met after one resize iteration. -/
def c9Opts : CompressionOptions :=
  { targetSizeKB := some (3/1024), minQuality := some 95 }

/-- The quality-search result of the single resize iteration performed by
`compressWithResizeT c9Codec [0] c9Opts`. -/
def c9Result : CompressionResult := mkResult (List.replicate 3 0) 95 .png 1

/-- The resize trace of `compressWithResizeT c9Codec [0] c9Opts`. -/
def c9Trace : List ResizeStep := [⟨9/10, 9, 9, [9], c9Result⟩]

/-- Options with a degenerate quality interval 95..95 (one iteration). -/
def c6wOpts : CompressionOptions := { minQuality := some 95 }

/-- Result of `compressToSize c6Codec [0] c6wOpts`. -/
def c6wResult : CompressionResult := mkResult [0] 95 .png 1

/-! General helper lemmas. -/

/-- Decided form of the coerced Bool condition `false = true`. -/
@[simp] theorem false_eq_true_iff : (false = true) = False := eq_false (by decide)

/-- Decided form of the coerced Bool condition `true = true`. -/
@[simp] theorem true_eq_true_iff : (true = true) = True := eq_true rfl

/-- Numeral evaluations of `Int.toNat` used by the concrete runs. -/
theorem intToNat_lit4 : Int.toNat 4 = 4 := rfl

/-- Numeral evaluation of `Int.toNat 5`. -/
theorem intToNat_lit5 : Int.toNat 5 = 5 := rfl

/-- Numeral evaluation of `Int.toNat 6`. -/
theorem intToNat_lit6 : Int.toNat 6 = 6 := rfl

/-- Numeral evaluation of `Int.toNat 7`. -/
theorem intToNat_lit7 : Int.toNat 7 = 7 := rfl

/-- Numeral evaluation of `Int.toNat 8`. -/
theorem intToNat_lit8 : Int.toNat 8 = 8 := rfl

/-- Numeral evaluation of `Int.toNat 9`. -/
theorem intToNat_lit9 : Int.toNat 9 = 9 := rfl

/-- Reduction of the `Except` monad bind on a success value. -/
@[simp] theorem ok_bind {ε α β : Type} (a : α) (f : α → Except ε β) :
    (Except.ok a : Except ε α) >>= f = f a := rfl

/-- Reduction of the `Except` monad bind on an error value. -/
@[simp] theorem error_bind {ε α β : Type} (e : ε) (f : α → Except ε β) :
    (Except.error e : Except ε α) >>= f = Except.error e := rfl

/-- Reduction of `Except.map` on a success value. -/
@[simp] theorem map_ok {ε α β : Type} (a : α) (f : α → β) :
    (Except.ok a : Except ε α).map f = Except.ok (f a) := rfl

/-- Reduction of `Except.map` on an error value. -/
@[simp] theorem map_error {ε α β : Type} (e : ε) (f : α → β) :
    (Except.error e : Except ε α).map f = Except.error e := rfl

/-! General lemmas about the quality binary search. -/

/-- The midpoint quality never exceeds the upper search bound. -/
theorem mid_le_high {low high : ℚ} (h : low ≤ high) :
    ((⌊(low + high) / 2⌋ : ℤ) : ℚ) ≤ high :=
  le_trans (Int.floor_le _) (by linarith)

/-- The midpoint quality never falls below the floor of any lower bound
on the lower search bound. -/
theorem floor_le_mid {minQ low high : ℚ} (hm : minQ ≤ low) (h : low ≤ high) :
    ((⌊minQ⌋ : ℤ) : ℚ) ≤ ((⌊(low + high) / 2⌋ : ℤ) : ℚ) := by
  have : ⌊minQ⌋ ≤ ⌊(low + high) / 2⌋ := Int.floor_le_floor (by linarith)
  exact_mod_cast this

/-- Raising the lower bound to `mid + 1` keeps it above the lower search
bound. -/
theorem low_lt_mid_add_one {low high : ℚ} (h : low ≤ high) :
    low < ((⌊(low + high) / 2⌋ : ℤ) : ℚ) + 1 :=
  lt_of_le_of_lt (by linarith) (Int.lt_floor_add_one _)

/-- Combined accounting for a successful run of the search loop, by
induction on the remaining iteration budget: the ghost trace grows by
exactly the number of iterations performed (one encoder call each), at
most `n` more iterations happen, and the recorded best candidate stays an
encoder output at a quality between `⌊minQ⌋` and `initQ`, provided the
bounds `minQ ≤ low` and `high ≤ initQ` hold on entry. -/
theorem searchLoop_spec (C : Codec) (b : Buffer) (f : Format)
    (t minQ initQ : ℚ) :
    ∀ (n : Nat) (low high : ℚ) (it : Nat) (best : Option (Buffer × ℚ))
      (tr : List ℚ) (out : Option (Buffer × ℚ) × Nat × List ℚ),
      searchLoop C b f t n low high it best tr = .ok out →
      minQ ≤ low → high ≤ initQ →
      (∀ bq ∈ best, ((⌊minQ⌋ : ℤ) : ℚ) ≤ bq.2 ∧ bq.2 ≤ initQ
        ∧ C.compressBuffer b bq.2 f = .ok bq.1) →
      out.2.2.length + it = tr.length + out.2.1
      ∧ out.2.1 ≤ it + n
      ∧ (∀ bq ∈ out.1, ((⌊minQ⌋ : ℤ) : ℚ) ≤ bq.2 ∧ bq.2 ≤ initQ
        ∧ C.compressBuffer b bq.2 f = .ok bq.1) := by
  intro n
  induction n with
  | zero =>
    intro low high it best tr out h hlo hhi hbest
    rw [searchLoop] at h
    simp only [Except.ok.injEq] at h
    subst h
    exact ⟨rfl, Nat.le_refl _, hbest⟩
  | succ n ih =>
    intro low high it best tr out h hlo hhi hbest
    rw [searchLoop] at h
    by_cases hcond : low ≤ high
    · rw [if_pos hcond] at h
      simp only [] at h
      rcases hE : C.compressBuffer b ((⌊(low + high) / 2⌋ : ℤ) : ℚ) f with e | buf
      · rw [hE] at h; simp at h
      · rw [hE] at h
        simp only [ok_bind] at h
        by_cases hfit :
            ((buf.length : ℚ) / 1024) ≤ t
        · rw [if_pos hfit] at h
          have hrec := ih _ _ (it + 1) _ _ _ h
            (le_of_lt (lt_of_le_of_lt hlo (low_lt_mid_add_one hcond))) hhi
            (by
              intro bq hbq
              simp only [Option.mem_def, Option.some.injEq] at hbq
              subst hbq
              exact ⟨floor_le_mid hlo hcond, le_trans (mid_le_high hcond) hhi, hE⟩)
          refine ⟨?_, ?_, hrec.2.2⟩
          · have := hrec.1
            simp only [List.length_append, List.length_cons, List.length_nil] at this ⊢
            omega
          · omega
        · rw [if_neg hfit] at h
          have hrec := ih _ _ (it + 1) _ _ _ h hlo
            (le_trans (by linarith [mid_le_high hcond]) hhi) hbest
          refine ⟨?_, ?_, hrec.2.2⟩
          · have := hrec.1
            simp only [List.length_append, List.length_cons, List.length_nil] at this ⊢
            omega
          · omega
    · rw [if_neg hcond] at h
      simp only [Except.ok.injEq] at h
      subst h
      exact ⟨rfl, Nat.le_add_right it (n + 1), hbest⟩

/-- The search loop always succeeds when the encoder always succeeds. -/
theorem searchLoop_total (C : Codec) (b : Buffer) (f : Format) (t : ℚ)
    (henc : ∀ bi q fm, ∃ out, C.compressBuffer bi q fm = .ok out) :
    ∀ (n : Nat) (low high : ℚ) (it : Nat) (best : Option (Buffer × ℚ))
      (tr : List ℚ), ∃ out, searchLoop C b f t n low high it best tr = .ok out := by
  intro n
  induction n with
  | zero =>
    intro low high it best tr
    exact ⟨_, by rw [searchLoop]⟩
  | succ n ih =>
    intro low high it best tr
    by_cases hcond : low ≤ high
    · obtain ⟨buf, hbuf⟩ := henc b ((⌊(low + high) / 2⌋ : ℤ) : ℚ) f
      by_cases hfit : ((buf.length : ℚ) / 1024) ≤ t
      · obtain ⟨out, hout⟩ := ih (((⌊(low + high) / 2⌋ : ℤ) : ℚ) + 1) high (it + 1)
          (some (buf, ((⌊(low + high) / 2⌋ : ℤ) : ℚ))) (tr ++ [((⌊(low + high) / 2⌋ : ℤ) : ℚ)])
        refine ⟨out, ?_⟩
        rw [searchLoop, if_pos hcond]
        simp only [hbuf, ok_bind]
        rw [if_pos hfit]
        exact hout
      · obtain ⟨out, hout⟩ := ih low (((⌊(low + high) / 2⌋ : ℤ) : ℚ) - 1) (it + 1)
          best (tr ++ [((⌊(low + high) / 2⌋ : ℤ) : ℚ)])
        refine ⟨out, ?_⟩
        rw [searchLoop, if_pos hcond]
        simp only [hbuf, ok_bind]
        rw [if_neg hfit]
        exact hout
    · exact ⟨_, by rw [searchLoop, if_neg hcond]⟩

/-- Accounting for a successful quality-search call: the ghost trace
records every encoder invocation (the loop iterations plus the possible
lowest-quality fallback), the reported iteration count stays within the
`maxIterations` budget, the returned payload is an encoder output at the
returned quality on the same input, the size fields are derived from that
payload, and (when the search interval is non-degenerate on entry) the
returned quality is bracketed by `⌊minQuality⌋` and `initialQuality`. -/
theorem compressToSizeT_spec (C : Codec) (b : Buffer)
    (o : CompressionOptions) (r : CompressionResult) (tr : List ℚ)
    (h : compressToSizeT C b o = .ok (r, tr)) :
    tr.length ≤ o.maxIterations.getD 10 + 1
    ∧ r.iterations ≤ o.maxIterations.getD 10
    ∧ C.compressBuffer b r.quality (o.format.getD .png) = .ok r.base64
    ∧ r.sizeKB = (r.base64.length : ℚ) / 1024
    ∧ (o.minQuality.getD 10 ≤ o.initialQuality.getD 95 →
        ((⌊o.minQuality.getD 10⌋ : ℤ) : ℚ) ≤ r.quality
        ∧ r.quality ≤ o.initialQuality.getD 95) := by
  rw [compressToSizeT] at h
  simp only [] at h
  rcases hS : searchLoop C b (o.format.getD .png) (o.targetSizeKB.getD 1024)
      (o.maxIterations.getD 10) (o.minQuality.getD 10)
      (o.initialQuality.getD 95) 0 none [] with e | trip
  · rw [hS] at h; simp at h
  · rw [hS] at h
    simp only [ok_bind] at h
    obtain ⟨best, it, tr0⟩ := trip
    have hspec := searchLoop_spec C b (o.format.getD .png)
      (o.targetSizeKB.getD 1024) (o.minQuality.getD 10)
      (o.initialQuality.getD 95) (o.maxIterations.getD 10)
      (o.minQuality.getD 10) (o.initialQuality.getD 95) 0 none []
      (best, it, tr0) hS (le_refl _) (le_refl _) (by simp)
    rcases best with _ | ⟨buf, q⟩
    · rcases hE : C.compressBuffer b (o.minQuality.getD 10)
          (o.format.getD .png) with e | fbuf
      · rw [hE] at h; simp at h
      · rw [hE] at h
        simp only [ok_bind, Except.ok.injEq, Prod.mk.injEq] at h
        obtain ⟨hr, htr⟩ := h
        subst hr; subst htr
        have hlen : tr0.length = it := by
          have := hspec.1; simpa using this
        have hit : it ≤ o.maxIterations.getD 10 := by
          have := hspec.2.1; simpa using this
        refine ⟨?_, ?_, ?_, rfl, ?_⟩
        · simp only [List.length_append, List.length_cons, List.length_nil]
          omega
        · simpa [mkResult] using hit
        · simpa [mkResult] using hE
        · intro hmi
          refine ⟨by simpa [mkResult] using Int.floor_le _, by simpa [mkResult] using hmi⟩
    · simp only [Except.ok.injEq, Prod.mk.injEq] at h
      obtain ⟨hr, htr⟩ := h
      subst hr; subst htr
      have hq := hspec.2.2 (buf, q) (by simp)
      have hlen : tr0.length = it := by
        have := hspec.1; simpa using this
      have hit : it ≤ o.maxIterations.getD 10 := by
        have := hspec.2.1; simpa using this
      refine ⟨?_, ?_, ?_, rfl, ?_⟩
      · omega
      · simpa [mkResult] using hit
      · simpa [mkResult] using hq.2.2
      · intro _
        exact ⟨by simpa [mkResult] using hq.1, by simpa [mkResult] using hq.2.1⟩

/-- The quality search always succeeds when the encoder always
succeeds. -/
theorem compressToSizeT_total (C : Codec) (b : Buffer)
    (o : CompressionOptions)
    (henc : ∀ bi q fm, ∃ out, C.compressBuffer bi q fm = .ok out) :
    ∃ r tr, compressToSizeT C b o = .ok (r, tr) := by
  obtain ⟨⟨best, it, tr0⟩, hS⟩ := searchLoop_total C b (o.format.getD .png)
    (o.targetSizeKB.getD 1024) henc (o.maxIterations.getD 10)
    (o.minQuality.getD 10) (o.initialQuality.getD 95) 0 none []
  rcases best with _ | ⟨buf, q⟩
  · obtain ⟨fbuf, hE⟩ := henc b (o.minQuality.getD 10) (o.format.getD .png)
    refine ⟨mkResult fbuf (o.minQuality.getD 10) (o.format.getD .png) it,
      tr0 ++ [o.minQuality.getD 10], ?_⟩
    rw [compressToSizeT]
    simp only [hS, ok_bind, hE]
  · refine ⟨mkResult buf q (o.format.getD .png) it, tr0, ?_⟩
    rw [compressToSizeT]
    simp only [hS, ok_bind]

/-! General lemmas about the progressive-resize loop. -/

/-- Structure of a successful resize-loop run, by induction on the fuel:
the ghost trace extends the accumulator by the executed iterations; when
no iteration ran the entry result is returned unchanged; when some ran,
the entry result was over target and the returned result is the last
iteration's; every recorded iteration either was still over target (so
the loop went on) or is the returned result; and every recorded result
came from the quality search on that iteration's resized buffer. -/
theorem resizeLoop_spec (C : Codec) (o : CompressionOptions) (t : ℚ)
    (cb : Buffer) (ow oh : Nat) :
    ∀ (fuel : Nat) (res : CompressionResult) (scale : ℚ)
      (acc : List ResizeStep) (r : CompressionResult) (tr : List ResizeStep),
      resizeLoop C o t cb ow oh fuel res scale acc = .ok (r, tr) →
      ∃ ext, tr = acc ++ ext
        ∧ (ext = [] → r = res)
        ∧ (ext ≠ [] → res.sizeKB > t)
        ∧ (ext ≠ [] → ext.getLast?.map (fun s => s.result) = some r)
        ∧ (∀ s ∈ ext, s.result.sizeKB > t ∨ s.result = r)
        ∧ (∀ s ∈ ext, ∃ tr2, compressToSizeT C s.buffer o = .ok (s.result, tr2)) := by
  intro fuel
  induction fuel with
  | zero =>
    intro res scale acc r tr h
    rw [resizeLoop] at h
    simp only [Except.ok.injEq, Prod.mk.injEq] at h
    exact ⟨[], by simp [h.2.symm], fun _ => h.1.symm, by simp, by simp, by simp, by simp⟩
  | succ fuel ih =>
    intro res scale acc r tr h
    rw [resizeLoop] at h
    by_cases hg : res.sizeKB > t ∧ scale > 3/10
    case neg =>
      rw [if_neg hg] at h
      simp only [Except.ok.injEq, Prod.mk.injEq] at h
      exact ⟨[], by simp [h.2.symm], fun _ => h.1.symm, by simp, by simp, by simp, by simp⟩
    case pos =>
      rw [if_pos hg] at h
      simp only [] at h
      rcases hR : C.resize cb (some (scaledDim ow scale)) (some (scaledDim oh scale))
        with e | rb
      · rw [hR] at h; simp at h
      · rw [hR] at h
        simp only [ok_bind] at h
        rcases hCT : compressToSizeT C rb o with e | pr
        · rw [hCT] at h; simp at h
        · rw [hCT] at h
          simp only [ok_bind] at h
          obtain ⟨res2, tr2⟩ := pr
          obtain ⟨ext2, htr, hnil, hover, hlast, hall, hprov⟩ :=
            ih res2 (scale - 1/10)
              (acc ++ [⟨scale, scaledDim ow scale, scaledDim oh scale, rb, res2⟩]) r tr h
          refine ⟨⟨scale, scaledDim ow scale, scaledDim oh scale, rb, res2⟩ :: ext2,
            by simpa using htr, by simp, fun _ => hg.1, ?_, ?_, ?_⟩
          · intro _
            rcases ext2 with _ | ⟨s2, ext3⟩
            · simpa using (hnil rfl).symm
            · simpa [List.getLast?_cons_cons] using hlast (by simp)
          · intro s hs
            rcases List.mem_cons.mp hs with hs | hs
            · subst hs
              rcases ext2 with _ | ⟨s2, ext3⟩
              · exact Or.inr ((hnil rfl).symm)
              · exact Or.inl (hover (by simp))
            · exact hall s hs
          · intro s hs
            rcases List.mem_cons.mp hs with hs | hs
            · subst hs
              exact ⟨tr2, hCT⟩
            · exact hprov s hs

/-- Shape of each iteration recorded by a successful resize-loop run: the
iteration at position `k` of the appended trace used scale
`scale - k/10`, requested exactly the dimensions scaled from the original
ones at that scale, and resized the constrained buffer `cb` (never an
earlier iteration's output) to produce its pixel input. -/
theorem resizeLoop_steps (C : Codec) (o : CompressionOptions) (t : ℚ)
    (cb : Buffer) (ow oh : Nat) :
    ∀ (fuel : Nat) (res : CompressionResult) (scale : ℚ)
      (acc : List ResizeStep) (r : CompressionResult) (tr : List ResizeStep),
      resizeLoop C o t cb ow oh fuel res scale acc = .ok (r, tr) →
      ∃ ext, tr = acc ++ ext
        ∧ ∀ k (hk : k < ext.length),
            (ext.get ⟨k, hk⟩).scale = scale - k / 10
            ∧ (ext.get ⟨k, hk⟩).newWidth = scaledDim ow (scale - k / 10)
            ∧ (ext.get ⟨k, hk⟩).newHeight = scaledDim oh (scale - k / 10)
            ∧ C.resize cb (some (ext.get ⟨k, hk⟩).newWidth)
                (some (ext.get ⟨k, hk⟩).newHeight) = .ok (ext.get ⟨k, hk⟩).buffer := by
  intro fuel
  induction fuel with
  | zero =>
    intro res scale acc r tr h
    rw [resizeLoop] at h
    simp only [Except.ok.injEq, Prod.mk.injEq] at h
    exact ⟨[], by simp [h.2.symm], by simp⟩
  | succ fuel ih =>
    intro res scale acc r tr h
    rw [resizeLoop] at h
    by_cases hg : res.sizeKB > t ∧ scale > 3/10
    case neg =>
      rw [if_neg hg] at h
      simp only [Except.ok.injEq, Prod.mk.injEq] at h
      exact ⟨[], by simp [h.2.symm], by simp⟩
    case pos =>
      rw [if_pos hg] at h
      simp only [] at h
      rcases hR : C.resize cb (some (scaledDim ow scale)) (some (scaledDim oh scale))
        with e | rb
      · rw [hR] at h; simp at h
      · rw [hR] at h
        simp only [ok_bind] at h
        rcases hCT : compressToSizeT C rb o with e | pr
        · rw [hCT] at h; simp at h
        · rw [hCT] at h
          simp only [ok_bind] at h
          obtain ⟨res2, tr2⟩ := pr
          obtain ⟨ext2, htr, hsteps⟩ :=
            ih res2 (scale - 1/10)
              (acc ++ [⟨scale, scaledDim ow scale, scaledDim oh scale, rb, res2⟩]) r tr h
          refine ⟨⟨scale, scaledDim ow scale, scaledDim oh scale, rb, res2⟩ :: ext2,
            by simpa using htr, ?_⟩
          intro k hk
          match k with
          | 0 => exact ⟨by norm_num, by norm_num, by norm_num, by simpa using hR⟩
          | k + 1 =>
            have hk2 : k < ext2.length := by simpa using hk
            have := hsteps k hk2
            have harith : scale - 1/10 - (k : ℚ) / 10 = scale - ((k : ℚ) + 1) / 10 := by
              ring
            simp only [List.get_cons_succ]
            refine ⟨?_, ?_, ?_, ?_⟩
            · rw [(this.1.trans (by rw [harith]) : _)]
              push_cast
              ring
            · rw [this.2.1, harith]
              push_cast
              norm_num
            · rw [this.2.2.1, harith]
              push_cast
              norm_num
            · exact this.2.2.2

/-- Iteration-count bound for the resize loop: a successful run appends
at most `max (⌈scale*10⌉ - 3) 0` steps to the trace, since every
iteration requires `scale > 3/10` and lowers `scale` by `1/10`. -/
theorem resizeLoop_length (C : Codec) (o : CompressionOptions) (t : ℚ)
    (cb : Buffer) (ow oh : Nat) :
    ∀ (fuel : Nat) (res : CompressionResult) (scale : ℚ)
      (acc : List ResizeStep) (r : CompressionResult) (tr : List ResizeStep),
      resizeLoop C o t cb ow oh fuel res scale acc = .ok (r, tr) →
      (tr.length : ℤ) ≤ acc.length + max (⌈scale * 10⌉ - 3) 0 := by
  intro fuel
  induction fuel with
  | zero =>
    intro res scale acc r tr h
    rw [resizeLoop] at h
    simp only [Except.ok.injEq, Prod.mk.injEq] at h
    obtain ⟨h1, h2⟩ := h
    subst h2
    have hmax : (0:ℤ) ≤ max (⌈scale * 10⌉ - 3) 0 := le_max_right _ _
    omega
  | succ fuel ih =>
    intro res scale acc r tr h
    rw [resizeLoop] at h
    by_cases hg : res.sizeKB > t ∧ scale > 3/10
    case neg =>
      rw [if_neg hg] at h
      simp only [Except.ok.injEq, Prod.mk.injEq] at h
      obtain ⟨h1, h2⟩ := h
      subst h2
      have hmax : (0:ℤ) ≤ max (⌈scale * 10⌉ - 3) 0 := le_max_right _ _
      omega
    case pos =>
      rw [if_pos hg] at h
      simp only [] at h
      rcases hR : C.resize cb (some (scaledDim ow scale)) (some (scaledDim oh scale))
        with e | rb
      · rw [hR] at h; simp at h
      · rw [hR] at h
        simp only [ok_bind] at h
        rcases hCT : compressToSizeT C rb o with e | pr
        · rw [hCT] at h; simp at h
        · rw [hCT] at h
          simp only [ok_bind] at h
          obtain ⟨res2, tr2⟩ := pr
          have hlen := ih res2 (scale - 1/10)
            (acc ++ [⟨scale, scaledDim ow scale, scaledDim oh scale, rb, res2⟩]) r tr h
          have hceil : ⌈(scale - 1/10) * 10⌉ = ⌈scale * 10⌉ - 1 := by
            rw [show (scale - 1/10) * 10 = scale * 10 - ((1 : ℤ) : ℚ) by push_cast; ring]
            exact Int.ceil_sub_int _ _
          have hge : (4 : ℤ) ≤ ⌈scale * 10⌉ := by
            have h3 : (3 : ℚ) < scale * 10 := by linarith [hg.2]
            have := lt_of_lt_of_le h3 (Int.le_ceil (scale * 10))
            exact_mod_cast (by exact_mod_cast this : (3 : ℤ) < ⌈scale * 10⌉)
          rw [hceil] at hlen
          simp only [List.length_append, List.length_cons, List.length_nil] at hlen ⊢
          omega

/-- The resize loop always succeeds when every codec operation always
succeeds. -/
theorem resizeLoop_total (C : Codec) (o : CompressionOptions) (t : ℚ)
    (cb : Buffer) (ow oh : Nat)
    (henc : ∀ bi q fm, ∃ out, C.compressBuffer bi q fm = .ok out)
    (hres : ∀ bi w h, ∃ out, C.resize bi w h = .ok out) :
    ∀ (fuel : Nat) (res : CompressionResult) (scale : ℚ)
      (acc : List ResizeStep),
      ∃ out, resizeLoop C o t cb ow oh fuel res scale acc = .ok out := by
  intro fuel
  induction fuel with
  | zero =>
    intro res scale acc
    exact ⟨_, by rw [resizeLoop]⟩
  | succ fuel ih =>
    intro res scale acc
    by_cases hg : res.sizeKB > t ∧ scale > 3/10
    case neg => exact ⟨_, by rw [resizeLoop, if_neg hg]⟩
    case pos =>
      obtain ⟨rb, hR⟩ := hres cb (some (scaledDim ow scale)) (some (scaledDim oh scale))
      obtain ⟨res2, tr2, hCT⟩ := compressToSizeT_total C rb o henc
      obtain ⟨out, hout⟩ := ih res2 (scale - 1/10)
        (acc ++ [⟨scale, scaledDim ow scale, scaledDim oh scale, rb, res2⟩])
      refine ⟨out, ?_⟩
      rw [resizeLoop, if_pos hg]
      simp only [hR, ok_bind, hCT]
      exact hout

/-- Case analysis of a successful `compressWithResizeT` run into its
pipeline stages: the dimension constraining, the first quality search
(with the rest options, whose `targetSizeKB` key is absent), and either
an immediate return (first result within the configured target) or the
metadata read followed by the resize loop. -/
theorem compressWithResizeT_ok_elim {C : Codec} {b : Buffer}
    {o : CompressionOptions} {out : CompressionResult × List ResizeStep}
    (h : compressWithResizeT C b o = .ok out) :
    ∃ cb r0 tr0,
      resizeToFitDimensions C b (some (o.maxWidth.getD 2048))
        (some (o.maxHeight.getD 2048)) = .ok cb
      ∧ compressToSizeT C cb (restOptions o) = .ok (r0, tr0)
      ∧ ((¬ r0.sizeKB > o.targetSizeKB.getD 1024 ∧ out = (r0, []))
        ∨ (r0.sizeKB > o.targetSizeKB.getD 1024 ∧ ∃ md,
            C.metadata cb = .ok md
            ∧ resizeLoop C (restOptions o) (o.targetSizeKB.getD 1024) cb
                (jsOrNat md.width (o.maxWidth.getD 2048))
                (jsOrNat md.height (o.maxHeight.getD 2048)) 9 r0 (9/10) []
              = .ok out)) := by
  rw [compressWithResizeT] at h
  simp only [] at h
  rcases hcb : resizeToFitDimensions C b (some (o.maxWidth.getD 2048))
      (some (o.maxHeight.getD 2048)) with e | cb
  · rw [hcb] at h; simp at h
  · rw [hcb] at h
    simp only [ok_bind] at h
    rcases hct : compressToSizeT C cb (restOptions o) with e | pr
    · rw [hct] at h; simp at h
    · rw [hct] at h
      simp only [ok_bind] at h
      obtain ⟨r0, tr0⟩ := pr
      by_cases hover : r0.sizeKB > o.targetSizeKB.getD 1024
      · rw [if_pos hover] at h
        simp only [] at h
        rcases hmd : C.metadata cb with e | md
        · rw [hmd] at h; simp at h
        · rw [hmd] at h
          simp only [ok_bind] at h
          exact ⟨cb, r0, tr0, rfl, hct, Or.inr ⟨hover, md, hmd, h⟩⟩
      · rw [if_neg hover] at h
        simp only [Except.ok.injEq] at h
        exact ⟨cb, r0, tr0, rfl, hct, Or.inl ⟨hover, h.symm⟩⟩

/-- The dimension constrainer always succeeds when the codec does. -/
theorem resizeToFitDimensions_total (C : Codec) (b : Buffer)
    (mw mh : Option Nat)
    (hres : ∀ bi w h, ∃ out, C.resize bi w h = .ok out)
    (hmd : ∀ bi, ∃ m, C.metadata bi = .ok m) :
    ∃ cb, resizeToFitDimensions C b mw mh = .ok cb := by
  rw [resizeToFitDimensions]
  by_cases h1 : (!truthyNat mw && !truthyNat mh) = true
  · exact ⟨b, by rw [if_pos h1]⟩
  · rw [if_neg h1]
    obtain ⟨md, hm⟩ := hmd b
    simp only [hm, ok_bind]
    by_cases h2 : (!exceedsDim mw md.width && !exceedsDim mh md.height) = true
    · exact ⟨b, by rw [if_pos h2]⟩
    · obtain ⟨cb, hc⟩ := hres b mw mh
      exact ⟨cb, by rw [if_neg h2]; exact hc⟩

/-- The whole orchestrator always succeeds when every codec operation
always succeeds. -/
theorem compressWithResizeT_total (C : Codec) (b : Buffer)
    (o : CompressionOptions)
    (henc : ∀ bi q fm, ∃ out, C.compressBuffer bi q fm = .ok out)
    (hres : ∀ bi w h, ∃ out, C.resize bi w h = .ok out)
    (hmd : ∀ bi, ∃ m, C.metadata bi = .ok m) :
    ∃ out, compressWithResizeT C b o = .ok out := by
  obtain ⟨cb, hcb⟩ := resizeToFitDimensions_total C b
    (some (o.maxWidth.getD 2048)) (some (o.maxHeight.getD 2048)) hres hmd
  obtain ⟨r0, tr0, hct⟩ := compressToSizeT_total C cb (restOptions o) henc
  by_cases hover : r0.sizeKB > o.targetSizeKB.getD 1024
  · obtain ⟨md, hm⟩ := hmd cb
    obtain ⟨out, hout⟩ := resizeLoop_total C (restOptions o)
      (o.targetSizeKB.getD 1024) cb (jsOrNat md.width (o.maxWidth.getD 2048))
      (jsOrNat md.height (o.maxHeight.getD 2048)) henc hres 9 r0 (9/10) []
    refine ⟨out, ?_⟩
    rw [compressWithResizeT]
    simp only [hcb, ok_bind, hct, if_pos hover, hm]
    exact hout
  · refine ⟨(r0, []), ?_⟩
    rw [compressWithResizeT]
    simp only [hcb, ok_bind, hct, if_neg hover]


/-! Claim instances. -/

/-- C10 (counterexample): the environment value `"JPEG"` lies outside the
set {png, jpeg, webp}, yet `toCompressionFormat` yields `jpeg`, not the
`png` fallback the claim predicts — matching is case-insensitive. -/
theorem c10_format_case_insensitive_counterexample :
    ("JPEG" ∉ (["png", "jpeg", "webp"] : List String))
    ∧ toCompressionFormat (some "JPEG") Format.png = Format.jpeg
    ∧ Format.jpeg ≠ Format.png := by
  refine ⟨by decide, by decide, by decide⟩

/-- C10 (amended): configuration loading is total and never raises: a
missing value, a value parsing to a non-finite number, and a value
parsing to a non-positive number all yield the numeric fallback, and a
missing format value or one whose LOWERCASING lies outside
{png, jpeg, webp} yields the format fallback (matching is
case-insensitive; values matching case-insensitively yield the matched
format rather than the fallback). -/
theorem c10_config_fallbacks :
    (∀ (jsNum : String → Option ℚ) (fb : ℚ), toNumber jsNum none fb = fb)
    ∧ (∀ (jsNum : String → Option ℚ) (fb : ℚ) (s : String),
        jsNum s = none → toNumber jsNum (some s) fb = fb)
    ∧ (∀ (jsNum : String → Option ℚ) (fb : ℚ) (s : String) (q : ℚ),
        jsNum s = some q → ¬ q > 0 → toNumber jsNum (some s) fb = fb)
    ∧ (∀ fb : Format, toCompressionFormat none fb = fb)
    ∧ (∀ (fb : Format) (s : String),
        jsToLower s ∉ (["png", "jpeg", "webp"] : List String) →
        toCompressionFormat (some s) fb = fb) := by
  refine ⟨fun _ _ => rfl, ?_, ?_, fun _ => rfl, ?_⟩
  · intro jsNum fb s hs
    by_cases he : s = ""
    · simp only [toNumber, if_pos he]
    · simp only [toNumber, if_neg he, hs]
  · intro jsNum fb s q hq hle
    by_cases he : s = ""
    · simp only [toNumber, if_pos he]
    · simp only [toNumber, if_neg he, hq, if_neg hle]
  · intro fb s hs
    rw [toCompressionFormat]
    simp only [List.mem_cons, List.mem_singleton, not_or] at hs
    by_cases he : s = ""
    · rw [if_pos he]
    · rw [if_neg he, if_neg hs.1, if_neg hs.2.1, if_neg hs.2.2.1]

/-- C10 (witness for the amended claim): concrete fallbacks. -/
theorem c10_config_fallbacks_witness :
    toNumber jsNumDigits (some "abc") 512 = 512
    ∧ toCompressionFormat (some "gif") Format.png = Format.png
    ∧ toNumber jsNumDigits none 85 = 85 :=
  ⟨c10_config_fallbacks.2.1 jsNumDigits 512 "abc" (by decide),
   c10_config_fallbacks.2.2.2.2 Format.png "gif" (by decide),
   c10_config_fallbacks.1 jsNumDigits 85⟩

/-- C4 (counterexample): the configuration built from the environment
`SCREENSHOT_MIN_QUALITY=90`, `SCREENSHOT_INITIAL_QUALITY=50` carries
`minQuality = 90 > 50 = initialQuality`: the construction neither rejects
nor clamps the violating values. -/
theorem c4_config_invariant_violable :
    ¬ ((screenshotConfig jsNumDigits c4Env 1280 960).minQuality ≤
       (screenshotConfig jsNumDigits c4Env 1280 960).initialQuality) := by
  have h90 : jsNumDigits "90" = some 90 := by
    rw [jsNumDigits, if_pos (by decide)]
    rw [show digitsVal "90".data = 90 from by decide]
    norm_num
  have h50 : jsNumDigits "50" = some 50 := by
    rw [jsNumDigits, if_pos (by decide)]
    rw [show digitsVal "50".data = 50 from by decide]
    norm_num
  rw [screenshotConfig]
  simp only [c4Env, toNumber, h90, h50,
    if_neg (show ¬ ("90" : String) = "" from by decide),
    if_neg (show ¬ ("50" : String) = "" from by decide)]
  norm_num

/-- C4 (amended): the config layer performs no cross-field validation:
each quality field is computed independently by `toNumber`, so the
invariant `minQuality ≤ initialQuality` holds exactly when the
independently parsed-or-defaulted values already satisfy it (in
particular for the default environment, 40 ≤ 85); environment values
violating it are passed through unchanged. -/
theorem c4_config_invariant_conditional (jsNum : String → Option ℚ)
    (env : Env) (w h : Nat)
    (hq : toNumber jsNum env.SCREENSHOT_MIN_QUALITY 40 ≤
      toNumber jsNum env.SCREENSHOT_INITIAL_QUALITY 85) :
    (screenshotConfig jsNum env w h).minQuality ≤
      (screenshotConfig jsNum env w h).initialQuality := by
  rw [screenshotConfig]
  exact hq

/-- C4 (witness): the default environment satisfies the invariant. -/
theorem c4_config_invariant_conditional_witness :
    (screenshotConfig jsNumDigits {} 1280 960).minQuality ≤
      (screenshotConfig jsNumDigits {} 1280 960).initialQuality :=
  c4_config_invariant_conditional jsNumDigits {} 1280 960
    (by rw [toNumber, toNumber]; norm_num)

/-- C8: whenever the compression pipeline throws, the screenshot
operation swallows the error and answers with the original uncompressed
frame and the configured media type. -/
theorem c8_screenshot_fallback_on_error (C : Codec) (cfg : ScreenshotConfig)
    (frame : Buffer) (e : CodecError)
    (h : compressWithResize C frame (screenshotOptions cfg) = .error e) :
    screenshot C cfg frame = { image := frame, mediaType := cfg.mediaType } := by
  rw [screenshot]
  by_cases hc : cfg.compressionEnabled = false
  · rw [if_pos hc]
  · rw [if_neg hc, h]

/-- Evaluation of the default-environment configuration used by the C8
witness. -/
theorem c8Cfg_eval : c8Cfg = ⟨true, 512, 85, 40, 100, 100, .png, "image/png"⟩ := by
  rw [c8Cfg, screenshotConfig]
  norm_num only [toNumber, toBoolean, toCompressionFormat, mediaTypeMap]

/-- C8 (witness): a codec whose encoder throws makes the pipeline throw,
and the screenshot call still returns the captured frame unchanged. -/
theorem c8_screenshot_fallback_on_error_witness :
    screenshot c8Codec c8Cfg [7] = { image := [7], mediaType := c8Cfg.mediaType } := by
  refine c8_screenshot_fallback_on_error c8Codec c8Cfg [7] ⟨"codec failure"⟩ ?_
  rw [c8Cfg_eval]
  norm_num only [compressWithResize, compressWithResizeT, restOptions,
    resizeToFitDimensions, truthyNat, exceedsDim, compressToSizeT,
    mkResult, c8Codec, screenshotOptions,
    ok_bind, error_bind, map_ok, map_error, Option.getD_some, Option.getD_none,
    ite_true, ite_false, ite_self, false_eq_true_iff, true_eq_true_iff,
    eq_self_iff_true, Bool.not_false, Bool.not_true, Bool.and_true,
    Bool.true_and, Bool.and_false, Bool.false_and, List.length_replicate]
  rw [searchLoop.eq_def]
  norm_num only [c8Codec, ok_bind, error_bind, map_ok, map_error,
    ite_true, ite_false]

/-- C3 (counterexample): with `maxIterations = 1` and an unreachable
1-byte target, the quality search performs two encoder invocations (the
single loop iteration at quality 52 plus the fallback at `minQuality`
10), exceeding `maxIterations`. -/
theorem c3_encode_count_exceeds_max :
    (compressToSizeT c3Codec [0] c3Opts).map (fun p => p.2) = .ok [52, 10]
    ∧ c3Opts.maxIterations = some 1
    ∧ ¬ (([52, 10] : List ℚ).length ≤ 1) := by
  refine ⟨?_, rfl, by norm_num⟩
  norm_num only [compressToSizeT, mkResult, c3Codec, c3Opts, ok_bind, error_bind, map_ok, map_error, Option.getD_some, Option.getD_none,
    ite_true, ite_false, ite_self, false_eq_true_iff, true_eq_true_iff,
    eq_self_iff_true, Bool.not_false, Bool.not_true, Bool.and_true, Bool.true_and,
    Bool.and_false, Bool.false_and, List.length_replicate, List.length_cons, List.length_nil, List.cons_append,
    List.nil_append, List.append_nil, List.cons.injEq, and_true, true_and,
    and_false, false_and]
  rw [searchLoop.eq_def]
  norm_num only [c3Codec, ok_bind, error_bind, map_ok, map_error, Option.getD_some, Option.getD_none,
    ite_true, ite_false, ite_self, false_eq_true_iff, true_eq_true_iff,
    eq_self_iff_true, Bool.not_false, Bool.not_true, Bool.and_true, Bool.true_and,
    Bool.and_false, Bool.false_and, List.length_replicate, List.length_cons, List.length_nil, List.cons_append,
    List.nil_append, List.append_nil, List.cons.injEq, and_true, true_and,
    and_false, false_and]
  rw [searchLoop.eq_def]
  norm_num only [c3Codec, ok_bind, error_bind, map_ok, map_error, Option.getD_some, Option.getD_none,
    ite_true, ite_false, ite_self, false_eq_true_iff, true_eq_true_iff,
    eq_self_iff_true, Bool.not_false, Bool.not_true, Bool.and_true, Bool.true_and,
    Bool.and_false, Bool.false_and, List.length_replicate, List.length_cons, List.length_nil, List.cons_append,
    List.nil_append, List.append_nil, List.cons.injEq, and_true, true_and,
    and_false, false_and]

/-- C3 (amended): the ghost trace of encoder invocations of a successful
quality-search call has length at most `maxIterations + 1` (the loop
performs at most `maxIterations` encodes and the no-fit fallback adds one
more), and the reported `iterations` field is at most `maxIterations`. -/
theorem c3_encode_count_bound (C : Codec) (b : Buffer)
    (o : CompressionOptions) (r : CompressionResult) (tr : List ℚ)
    (h : compressToSizeT C b o = .ok (r, tr)) :
    tr.length ≤ o.maxIterations.getD 10 + 1
    ∧ r.iterations ≤ o.maxIterations.getD 10 :=
  ⟨(compressToSizeT_spec C b o r tr h).1,
   (compressToSizeT_spec C b o r tr h).2.1⟩

/-- C3 (witness): the counterexample run itself satisfies the amended
bound with equality. -/
theorem c3_encode_count_bound_witness :
    (([52, 10] : List ℚ).length ≤ c3Opts.maxIterations.getD 10 + 1)
    ∧ (mkResult [0, 0] 10 .png 1).iterations ≤ c3Opts.maxIterations.getD 10 := by
  have hrun : compressToSizeT c3Codec [0] c3Opts
      = .ok (mkResult [0, 0] 10 .png 1, [52, 10]) := by
    norm_num only [compressToSizeT, mkResult, c3Codec, c3Opts, ok_bind, error_bind, map_ok, map_error, Option.getD_some, Option.getD_none,
    ite_true, ite_false, ite_self, false_eq_true_iff, true_eq_true_iff,
    eq_self_iff_true, Bool.not_false, Bool.not_true, Bool.and_true, Bool.true_and,
    Bool.and_false, Bool.false_and, List.length_replicate, List.length_cons, List.length_nil, List.cons_append,
    List.nil_append, List.append_nil, List.cons.injEq, and_true, true_and,
    and_false, false_and]
    rw [searchLoop.eq_def]
    norm_num only [c3Codec, ok_bind, error_bind, map_ok, map_error, Option.getD_some, Option.getD_none,
    ite_true, ite_false, ite_self, false_eq_true_iff, true_eq_true_iff,
    eq_self_iff_true, Bool.not_false, Bool.not_true, Bool.and_true, Bool.true_and,
    Bool.and_false, Bool.false_and, List.length_replicate, List.length_cons, List.length_nil, List.cons_append,
    List.nil_append, List.append_nil, List.cons.injEq, and_true, true_and,
    and_false, false_and]
    rw [searchLoop.eq_def]
    norm_num only [c3Codec, ok_bind, error_bind, map_ok, map_error, Option.getD_some, Option.getD_none,
    ite_true, ite_false, ite_self, false_eq_true_iff, true_eq_true_iff,
    eq_self_iff_true, Bool.not_false, Bool.not_true, Bool.and_true, Bool.true_and,
    Bool.and_false, Bool.false_and, List.length_replicate, List.length_cons, List.length_nil, List.cons_append,
    List.nil_append, List.append_nil, List.cons.injEq, and_true, true_and,
    and_false, false_and]
  exact c3_encode_count_bound c3Codec [0] c3Opts _ _ hrun

/-- C6 (counterexample): with the environment-expressible non-integer
bounds `minQuality = 40.5 ≤ initialQuality = 40.9`, the binary search
probes `⌊(40.5 + 40.9)/2⌋ = 40` and returns quality 40, strictly below
`minQuality`: the claimed interval `[minQuality, initialQuality]` does
not contain the result. -/
theorem c6_quality_below_min_counterexample :
    ((81:ℚ)/2 ≤ 409/10)
    ∧ (compressToSize c6Codec [0] c6Opts).map (fun r => r.quality) = .ok 40
    ∧ ¬ ((81:ℚ)/2 ≤ 40) := by
  refine ⟨by norm_num, ?_, by norm_num⟩
  norm_num only [compressToSize, compressToSizeT, mkResult, c6Codec, c6Opts, ok_bind, error_bind, map_ok, map_error, Option.getD_some, Option.getD_none,
    ite_true, ite_false, ite_self, false_eq_true_iff, true_eq_true_iff,
    eq_self_iff_true, Bool.not_false, Bool.not_true, Bool.and_true, Bool.true_and,
    Bool.and_false, Bool.false_and, List.length_replicate, List.length_cons, List.length_nil, List.cons_append,
    List.nil_append, List.append_nil, List.cons.injEq, and_true, true_and,
    and_false, false_and]
  rw [searchLoop.eq_def]
  norm_num only [c6Codec, ok_bind, error_bind, map_ok, map_error, Option.getD_some, Option.getD_none,
    ite_true, ite_false, ite_self, false_eq_true_iff, true_eq_true_iff,
    eq_self_iff_true, Bool.not_false, Bool.not_true, Bool.and_true, Bool.true_and,
    Bool.and_false, Bool.false_and, List.length_replicate, List.length_cons, List.length_nil, List.cons_append,
    List.nil_append, List.append_nil, List.cons.injEq, and_true, true_and,
    and_false, false_and]
  rw [searchLoop.eq_def]
  norm_num only [c6Codec, ok_bind, error_bind, map_ok, map_error, Option.getD_some, Option.getD_none,
    ite_true, ite_false, ite_self, false_eq_true_iff, true_eq_true_iff,
    eq_self_iff_true, Bool.not_false, Bool.not_true, Bool.and_true, Bool.true_and,
    Bool.and_false, Bool.false_and, List.length_replicate, List.length_cons, List.length_nil, List.cons_append,
    List.nil_append, List.append_nil, List.cons.injEq, and_true, true_and,
    and_false, false_and]

/-- C6 (amended): for a quality search whose (defaulted) bounds satisfy
`minQuality ≤ initialQuality`, the returned quality lies in
`[⌊minQuality⌋, initialQuality]`; when `minQuality` is an integer this is
the claimed interval `[minQuality, initialQuality]`. -/
theorem c6_quality_bounds_amended (C : Codec) (b : Buffer)
    (o : CompressionOptions) (r : CompressionResult)
    (hq : o.minQuality.getD 10 ≤ o.initialQuality.getD 95)
    (h : compressToSize C b o = .ok r) :
    ((⌊o.minQuality.getD 10⌋ : ℤ) : ℚ) ≤ r.quality
    ∧ r.quality ≤ o.initialQuality.getD 95 := by
  rw [compressToSize] at h
  rcases hT : compressToSizeT C b o with e | pr
  · rw [hT] at h; simp at h
  · rw [hT] at h
    obtain ⟨r0, tr0⟩ := pr
    simp only [map_ok, Except.ok.injEq] at h
    subst h
    exact (compressToSizeT_spec C b o r0 tr0 hT).2.2.2.2 hq

/-- C6 (witness): a degenerate 95..95 search returns quality 95, inside
the amended interval. -/
theorem c6_quality_bounds_amended_witness :
    ((⌊c6wOpts.minQuality.getD 10⌋ : ℤ) : ℚ) ≤ c6wResult.quality
    ∧ c6wResult.quality ≤ c6wOpts.initialQuality.getD 95 := by
  have hrun : compressToSize c6Codec [0] c6wOpts = .ok c6wResult := by
    norm_num only [compressToSize, compressToSizeT, mkResult, c6Codec,
      c6wOpts, c6wResult, ok_bind, error_bind, map_ok, map_error, Option.getD_some, Option.getD_none,
    ite_true, ite_false, ite_self, false_eq_true_iff, true_eq_true_iff,
    eq_self_iff_true, Bool.not_false, Bool.not_true, Bool.and_true, Bool.true_and,
    Bool.and_false, Bool.false_and, List.length_replicate, List.length_cons, List.length_nil, List.cons_append,
    List.nil_append, List.append_nil, List.cons.injEq, and_true, true_and,
    and_false, false_and]
    rw [searchLoop.eq_def]
    norm_num only [c6Codec, ok_bind, error_bind, map_ok, map_error, Option.getD_some, Option.getD_none,
    ite_true, ite_false, ite_self, false_eq_true_iff, true_eq_true_iff,
    eq_self_iff_true, Bool.not_false, Bool.not_true, Bool.and_true, Bool.true_and,
    Bool.and_false, Bool.false_and, List.length_replicate, List.length_cons, List.length_nil, List.cons_append,
    List.nil_append, List.append_nil, List.cons.injEq, and_true, true_and,
    and_false, false_and]
    rw [searchLoop.eq_def]
    norm_num only [c6Codec, mkResult, c6wResult, ok_bind, error_bind, map_ok, map_error, Option.getD_some, Option.getD_none,
    ite_true, ite_false, ite_self, false_eq_true_iff, true_eq_true_iff,
    eq_self_iff_true, Bool.not_false, Bool.not_true, Bool.and_true, Bool.true_and,
    Bool.and_false, Bool.false_and, List.length_replicate, List.length_cons, List.length_nil, List.cons_append,
    List.nil_append, List.append_nil, List.cons.injEq, and_true, true_and,
    and_false, false_and]
  exact c6_quality_bounds_amended c6Codec [0] c6wOpts c6wResult
    (by norm_num only [c6wOpts, Option.getD_some, Option.getD_none]) hrun

/-- C5: a successful orchestrator run performs at most 7 resize-loop
iterations (with exact rational arithmetic the scale schedule
0.9, 0.8, ..., 0.4 gives at most 6; under JavaScript doubles a seventh
iteration at scale 0.30000000000000004 can occur, still within the
claimed bound of 7). -/
theorem c5_resize_loop_at_most_seven (C : Codec) (b : Buffer)
    (o : CompressionOptions) (r : CompressionResult) (tr : List ResizeStep)
    (h : compressWithResizeT C b o = .ok (r, tr)) : tr.length ≤ 7 := by
  obtain ⟨cb, r0, tr0, hcb, hct, hcase⟩ := compressWithResizeT_ok_elim h
  rcases hcase with ⟨hle, hout⟩ | ⟨hover, md, hmd, hloop⟩
  · cases hout; simp
  · have hlen := resizeLoop_length C (restOptions o) (o.targetSizeKB.getD 1024)
      cb (jsOrNat md.width (o.maxWidth.getD 2048))
      (jsOrNat md.height (o.maxHeight.getD 2048)) 9 r0 (9/10) [] r tr hloop
    have hceil : (⌈(9/10 : ℚ) * 10⌉ : ℤ) = 9 := by norm_num
    rw [hceil] at hlen
    simp only [List.length_nil] at hlen
    omega

/-- C5 (witness): a run whose first result already fits performs zero
resize iterations. -/
theorem c5_resize_loop_at_most_seven_witness :
    ([] : List ResizeStep).length ≤ 7 := by
  have hrun : compressWithResizeT c5Codec [0] {} = .ok (c5Result, []) := by
    norm_num only [compressWithResizeT, restOptions, resizeToFitDimensions,
      truthyNat, exceedsDim, compressToSizeT, mkResult, c5Codec, c5Result, ok_bind, error_bind, map_ok, map_error, Option.getD_some, Option.getD_none,
    ite_true, ite_false, ite_self, false_eq_true_iff, true_eq_true_iff,
    eq_self_iff_true, Bool.not_false, Bool.not_true, Bool.and_true, Bool.true_and,
    Bool.and_false, Bool.false_and, List.length_replicate, List.length_cons, List.length_nil, List.cons_append,
    List.nil_append, List.append_nil, List.cons.injEq, and_true, true_and,
    and_false, false_and]
    rw [searchLoop.eq_def]
    norm_num only [c5Codec, ok_bind, error_bind, map_ok, map_error, Option.getD_some, Option.getD_none,
    ite_true, ite_false, ite_self, false_eq_true_iff, true_eq_true_iff,
    eq_self_iff_true, Bool.not_false, Bool.not_true, Bool.and_true, Bool.true_and,
    Bool.and_false, Bool.false_and, List.length_replicate, List.length_cons, List.length_nil, List.cons_append,
    List.nil_append, List.append_nil, List.cons.injEq, and_true, true_and,
    and_false, false_and]
    rw [searchLoop.eq_def]
    norm_num only [c5Codec, ok_bind, error_bind, map_ok, map_error, Option.getD_some, Option.getD_none,
    ite_true, ite_false, ite_self, false_eq_true_iff, true_eq_true_iff,
    eq_self_iff_true, Bool.not_false, Bool.not_true, Bool.and_true, Bool.true_and,
    Bool.and_false, Bool.false_and, List.length_replicate, List.length_cons, List.length_nil, List.cons_append,
    List.nil_append, List.append_nil, List.cons.injEq, and_true, true_and,
    and_false, false_and]
    rw [searchLoop.eq_def]
    norm_num only [c5Codec, ok_bind, error_bind, map_ok, map_error, Option.getD_some, Option.getD_none,
    ite_true, ite_false, ite_self, false_eq_true_iff, true_eq_true_iff,
    eq_self_iff_true, Bool.not_false, Bool.not_true, Bool.and_true, Bool.true_and,
    Bool.and_false, Bool.false_and, List.length_replicate, List.length_cons, List.length_nil, List.cons_append,
    List.nil_append, List.append_nil, List.cons.injEq, and_true, true_and,
    and_false, false_and]
    rw [searchLoop.eq_def]
    norm_num only [c5Codec, ok_bind, error_bind, map_ok, map_error, Option.getD_some, Option.getD_none,
    ite_true, ite_false, ite_self, false_eq_true_iff, true_eq_true_iff,
    eq_self_iff_true, Bool.not_false, Bool.not_true, Bool.and_true, Bool.true_and,
    Bool.and_false, Bool.false_and, List.length_replicate, List.length_cons, List.length_nil, List.cons_append,
    List.nil_append, List.append_nil, List.cons.injEq, and_true, true_and,
    and_false, false_and]
    rw [searchLoop.eq_def]
    norm_num only [c5Codec, ok_bind, error_bind, map_ok, map_error, Option.getD_some, Option.getD_none,
    ite_true, ite_false, ite_self, false_eq_true_iff, true_eq_true_iff,
    eq_self_iff_true, Bool.not_false, Bool.not_true, Bool.and_true, Bool.true_and,
    Bool.and_false, Bool.false_and, List.length_replicate, List.length_cons, List.length_nil, List.cons_append,
    List.nil_append, List.append_nil, List.cons.injEq, and_true, true_and,
    and_false, false_and]
    rw [searchLoop.eq_def]
    norm_num only [c5Codec, ok_bind, error_bind, map_ok, map_error, Option.getD_some, Option.getD_none,
    ite_true, ite_false, ite_self, false_eq_true_iff, true_eq_true_iff,
    eq_self_iff_true, Bool.not_false, Bool.not_true, Bool.and_true, Bool.true_and,
    Bool.and_false, Bool.false_and, List.length_replicate, List.length_cons, List.length_nil, List.cons_append,
    List.nil_append, List.append_nil, List.cons.injEq, and_true, true_and,
    and_false, false_and]
    rw [searchLoop.eq_def]
    norm_num only [c5Codec, ok_bind, error_bind, map_ok, map_error, Option.getD_some, Option.getD_none,
    ite_true, ite_false, ite_self, false_eq_true_iff, true_eq_true_iff,
    eq_self_iff_true, Bool.not_false, Bool.not_true, Bool.and_true, Bool.true_and,
    Bool.and_false, Bool.false_and, List.length_replicate, List.length_cons, List.length_nil, List.cons_append,
    List.nil_append, List.append_nil, List.cons.injEq, and_true, true_and,
    and_false, false_and]
    rw [searchLoop.eq_def]
    norm_num only [c5Codec, mkResult, c5Result, ok_bind, error_bind, map_ok, map_error, Option.getD_some, Option.getD_none,
    ite_true, ite_false, ite_self, false_eq_true_iff, true_eq_true_iff,
    eq_self_iff_true, Bool.not_false, Bool.not_true, Bool.and_true, Bool.true_and,
    Bool.and_false, Bool.false_and, List.length_replicate, List.length_cons, List.length_nil, List.cons_append,
    List.nil_append, List.append_nil, List.cons.injEq, and_true, true_and,
    and_false, false_and]
  exact c5_resize_loop_at_most_seven c5Codec [0] {} c5Result [] hrun


/-- C2 (counterexample): a codec whose resized outputs are not monotone
in the scale (3 bytes at scale 0.9, 5 bytes at every other scale, all
over the 2-byte target) drives the resize loop to its floor; the
returned result is the LAST attempt (5/1024 KB), not the smallest
observed (3/1024 KB at the first iteration). -/
theorem c2_final_not_smallest_counterexample :
    (compressWithResizeT c2Codec [0] c2Opts).map
      (fun p => (p.1.sizeKB, p.2.map (fun st => st.result.sizeKB)))
      = .ok (5/1024, [3/1024, 5/1024, 5/1024, 5/1024, 5/1024, 5/1024])
    ∧ ¬ ((5:ℚ)/1024 ≤ 3/1024) := by
  refine ⟨?_, by norm_num⟩
  norm_num only [c2Codec, c2Opts, List.map_cons, List.map_nil, ok_bind, error_bind, map_ok, map_error, Option.getD_some, Option.getD_none,
    ite_true, ite_false, ite_self, false_eq_true_iff, true_eq_true_iff,
    eq_self_iff_true, Bool.not_false, Bool.not_true, Bool.and_true, Bool.true_and,
    Bool.and_false, Bool.false_and, List.length_replicate, List.length_cons,
    List.length_nil, List.cons_append, List.nil_append, List.append_nil,
    List.cons.injEq, and_true, true_and, and_false, false_and, Nat.max_def,
    Int.toNat_ofNat, intToNat_lit4, intToNat_lit5, intToNat_lit6,
    intToNat_lit7, intToNat_lit8, intToNat_lit9, scaledDim, jsOrNat, compressWithResizeT, restOptions,
    resizeToFitDimensions, truthyNat, exceedsDim, compressToSizeT, mkResult]
  iterate 2 (rw [searchLoop.eq_def]; norm_num only [c2Codec, ok_bind, error_bind, map_ok, map_error, Option.getD_some, Option.getD_none,
    ite_true, ite_false, ite_self, false_eq_true_iff, true_eq_true_iff,
    eq_self_iff_true, Bool.not_false, Bool.not_true, Bool.and_true, Bool.true_and,
    Bool.and_false, Bool.false_and, List.length_replicate, List.length_cons,
    List.length_nil, List.cons_append, List.nil_append, List.append_nil,
    List.cons.injEq, and_true, true_and, and_false, false_and, Nat.max_def,
    Int.toNat_ofNat, intToNat_lit4, intToNat_lit5, intToNat_lit6,
    intToNat_lit7, intToNat_lit8, intToNat_lit9, scaledDim, jsOrNat, compressWithResizeT, restOptions,
    resizeToFitDimensions, truthyNat, exceedsDim, compressToSizeT, mkResult])
  iterate 6 (rw [resizeLoop.eq_def]
             norm_num only [c2Codec, ok_bind, error_bind, map_ok, map_error, Option.getD_some, Option.getD_none,
    ite_true, ite_false, ite_self, false_eq_true_iff, true_eq_true_iff,
    eq_self_iff_true, Bool.not_false, Bool.not_true, Bool.and_true, Bool.true_and,
    Bool.and_false, Bool.false_and, List.length_replicate, List.length_cons,
    List.length_nil, List.cons_append, List.nil_append, List.append_nil,
    List.cons.injEq, and_true, true_and, and_false, false_and, Nat.max_def,
    Int.toNat_ofNat, intToNat_lit4, intToNat_lit5, intToNat_lit6,
    intToNat_lit7, intToNat_lit8, intToNat_lit9, scaledDim, jsOrNat, compressWithResizeT, restOptions,
    resizeToFitDimensions, truthyNat, exceedsDim, compressToSizeT, mkResult]
             iterate 2 (rw [searchLoop.eq_def]; norm_num only [c2Codec, ok_bind, error_bind, map_ok, map_error, Option.getD_some, Option.getD_none,
    ite_true, ite_false, ite_self, false_eq_true_iff, true_eq_true_iff,
    eq_self_iff_true, Bool.not_false, Bool.not_true, Bool.and_true, Bool.true_and,
    Bool.and_false, Bool.false_and, List.length_replicate, List.length_cons,
    List.length_nil, List.cons_append, List.nil_append, List.append_nil,
    List.cons.injEq, and_true, true_and, and_false, false_and, Nat.max_def,
    Int.toNat_ofNat, intToNat_lit4, intToNat_lit5, intToNat_lit6,
    intToNat_lit7, intToNat_lit8, intToNat_lit9, scaledDim, jsOrNat, compressWithResizeT, restOptions,
    resizeToFitDimensions, truthyNat, exceedsDim, compressToSizeT, mkResult]))
  rw [resizeLoop.eq_def]
  norm_num only [c2Codec, List.map_cons, List.map_nil, ok_bind, error_bind, map_ok, map_error, Option.getD_some, Option.getD_none,
    ite_true, ite_false, ite_self, false_eq_true_iff, true_eq_true_iff,
    eq_self_iff_true, Bool.not_false, Bool.not_true, Bool.and_true, Bool.true_and,
    Bool.and_false, Bool.false_and, List.length_replicate, List.length_cons,
    List.length_nil, List.cons_append, List.nil_append, List.append_nil,
    List.cons.injEq, and_true, true_and, and_false, false_and, Nat.max_def,
    Int.toNat_ofNat, intToNat_lit4, intToNat_lit5, intToNat_lit6,
    intToNat_lit7, intToNat_lit8, intToNat_lit9, scaledDim, jsOrNat, compressWithResizeT, restOptions,
    resizeToFitDimensions, truthyNat, exceedsDim, compressToSizeT, mkResult]

/-- C2 (amended): when the resize loop runs, the returned result is the
LAST attempt's result — the loop keeps no minimum; it merely stops early
when an attempt meets the target, so every recorded attempt either still
exceeded the target or is the returned one.  (Under the spec's own
monotonicity assumption the last attempt is also the smallest observed,
but the code does not guarantee it.) -/
theorem c2_resize_returns_last_observed (C : Codec) (b : Buffer)
    (o : CompressionOptions) (r : CompressionResult) (tr : List ResizeStep)
    (h : compressWithResizeT C b o = .ok (r, tr)) (hne : tr ≠ []) :
    tr.getLast?.map (fun st => st.result) = some r
    ∧ ∀ st ∈ tr, st.result.sizeKB > o.targetSizeKB.getD 1024 ∨ st.result = r := by
  obtain ⟨cb, r0, tr0, hcb, hct, hcase⟩ := compressWithResizeT_ok_elim h
  rcases hcase with ⟨hle, hout⟩ | ⟨hover, md, hmd, hloop⟩
  · rw [Prod.mk.injEq] at hout
    exact absurd hout.2 hne
  · obtain ⟨ext, htr, hnil, hov2, hlast, hall, hprov⟩ :=
      resizeLoop_spec C (restOptions o) (o.targetSizeKB.getD 1024) cb
        (jsOrNat md.width (o.maxWidth.getD 2048))
        (jsOrNat md.height (o.maxHeight.getD 2048)) 9 r0 (9/10) [] r tr hloop
    simp only [List.nil_append] at htr
    subst htr
    exact ⟨hlast hne, hall⟩

/-- C2 (witness): a run whose single resize iteration meets the target
returns exactly that last (and only) observed result. -/
theorem c2_resize_returns_last_observed_witness :
    c2wTrace.getLast?.map (fun st => st.result) = some c2wResult := by
  have hrun : compressWithResizeT c2Codec [0] c2wOpts = .ok (c2wResult, c2wTrace) := by
    norm_num only [c2Codec, c2wOpts, c2wResult, c2wTrace, ok_bind, error_bind, map_ok, map_error, Option.getD_some, Option.getD_none,
    ite_true, ite_false, ite_self, false_eq_true_iff, true_eq_true_iff,
    eq_self_iff_true, Bool.not_false, Bool.not_true, Bool.and_true, Bool.true_and,
    Bool.and_false, Bool.false_and, List.length_replicate, List.length_cons,
    List.length_nil, List.cons_append, List.nil_append, List.append_nil,
    List.cons.injEq, and_true, true_and, and_false, false_and, Nat.max_def,
    Int.toNat_ofNat, intToNat_lit4, intToNat_lit5, intToNat_lit6,
    intToNat_lit7, intToNat_lit8, intToNat_lit9, scaledDim, jsOrNat, compressWithResizeT, restOptions,
    resizeToFitDimensions, truthyNat, exceedsDim, compressToSizeT, mkResult]
    iterate 2 (rw [searchLoop.eq_def]; norm_num only [c2Codec, c2wResult, ok_bind, error_bind, map_ok, map_error, Option.getD_some, Option.getD_none,
    ite_true, ite_false, ite_self, false_eq_true_iff, true_eq_true_iff,
    eq_self_iff_true, Bool.not_false, Bool.not_true, Bool.and_true, Bool.true_and,
    Bool.and_false, Bool.false_and, List.length_replicate, List.length_cons,
    List.length_nil, List.cons_append, List.nil_append, List.append_nil,
    List.cons.injEq, and_true, true_and, and_false, false_and, Nat.max_def,
    Int.toNat_ofNat, intToNat_lit4, intToNat_lit5, intToNat_lit6,
    intToNat_lit7, intToNat_lit8, intToNat_lit9, scaledDim, jsOrNat, compressWithResizeT, restOptions,
    resizeToFitDimensions, truthyNat, exceedsDim, compressToSizeT, mkResult])
    rw [resizeLoop.eq_def]
    norm_num only [c2Codec, c2wResult, ok_bind, error_bind, map_ok, map_error, Option.getD_some, Option.getD_none,
    ite_true, ite_false, ite_self, false_eq_true_iff, true_eq_true_iff,
    eq_self_iff_true, Bool.not_false, Bool.not_true, Bool.and_true, Bool.true_and,
    Bool.and_false, Bool.false_and, List.length_replicate, List.length_cons,
    List.length_nil, List.cons_append, List.nil_append, List.append_nil,
    List.cons.injEq, and_true, true_and, and_false, false_and, Nat.max_def,
    Int.toNat_ofNat, intToNat_lit4, intToNat_lit5, intToNat_lit6,
    intToNat_lit7, intToNat_lit8, intToNat_lit9, scaledDim, jsOrNat, compressWithResizeT, restOptions,
    resizeToFitDimensions, truthyNat, exceedsDim, compressToSizeT, mkResult]
    iterate 2 (rw [searchLoop.eq_def]; norm_num only [c2Codec, c2wResult, ok_bind, error_bind, map_ok, map_error, Option.getD_some, Option.getD_none,
    ite_true, ite_false, ite_self, false_eq_true_iff, true_eq_true_iff,
    eq_self_iff_true, Bool.not_false, Bool.not_true, Bool.and_true, Bool.true_and,
    Bool.and_false, Bool.false_and, List.length_replicate, List.length_cons,
    List.length_nil, List.cons_append, List.nil_append, List.append_nil,
    List.cons.injEq, and_true, true_and, and_false, false_and, Nat.max_def,
    Int.toNat_ofNat, intToNat_lit4, intToNat_lit5, intToNat_lit6,
    intToNat_lit7, intToNat_lit8, intToNat_lit9, scaledDim, jsOrNat, compressWithResizeT, restOptions,
    resizeToFitDimensions, truthyNat, exceedsDim, compressToSizeT, mkResult])
    rw [resizeLoop.eq_def]
    norm_num only [c2Codec, c2wResult, c2wTrace, ok_bind, error_bind, map_ok, map_error, Option.getD_some, Option.getD_none,
    ite_true, ite_false, ite_self, false_eq_true_iff, true_eq_true_iff,
    eq_self_iff_true, Bool.not_false, Bool.not_true, Bool.and_true, Bool.true_and,
    Bool.and_false, Bool.false_and, List.length_replicate, List.length_cons,
    List.length_nil, List.cons_append, List.nil_append, List.append_nil,
    List.cons.injEq, and_true, true_and, and_false, false_and, Nat.max_def,
    Int.toNat_ofNat, intToNat_lit4, intToNat_lit5, intToNat_lit6,
    intToNat_lit7, intToNat_lit8, intToNat_lit9, scaledDim, jsOrNat, compressWithResizeT, restOptions,
    resizeToFitDimensions, truthyNat, exceedsDim, compressToSizeT, mkResult]
  exact (c2_resize_returns_last_observed c2Codec [0] c2wOpts c2wResult c2wTrace
    hrun (by rw [c2wTrace]; exact List.cons_ne_nil _ _)).1

/-- C9: every resize-loop iteration of a successful orchestrator run
resizes the dimension-constrained buffer `cb` — never an earlier
iteration's output — and the iteration at position `k` uses scale
`9/10 - k/10` and dimensions `max(⌊original*scale⌋, 1)` computed from the
metadata of `cb`; hence each iteration's pixel input depends only on its
scale. -/
theorem c9_resize_from_constrained_buffer (C : Codec) (b : Buffer)
    (o : CompressionOptions) (r : CompressionResult) (tr : List ResizeStep)
    (cb : Buffer) (md : Metadata)
    (h : compressWithResizeT C b o = .ok (r, tr))
    (hcb : resizeToFitDimensions C b (some (o.maxWidth.getD 2048))
      (some (o.maxHeight.getD 2048)) = .ok cb)
    (hmd : C.metadata cb = .ok md) :
    ∀ k (hk : k < tr.length),
      (tr.get ⟨k, hk⟩).scale = 9/10 - (k : ℚ)/10
      ∧ (tr.get ⟨k, hk⟩).newWidth
          = scaledDim (jsOrNat md.width (o.maxWidth.getD 2048)) (9/10 - (k : ℚ)/10)
      ∧ (tr.get ⟨k, hk⟩).newHeight
          = scaledDim (jsOrNat md.height (o.maxHeight.getD 2048)) (9/10 - (k : ℚ)/10)
      ∧ C.resize cb (some (tr.get ⟨k, hk⟩).newWidth)
          (some (tr.get ⟨k, hk⟩).newHeight) = .ok (tr.get ⟨k, hk⟩).buffer := by
  obtain ⟨cb2, r0, tr0, hcb2, hct, hcase⟩ := compressWithResizeT_ok_elim h
  have hcbeq : cb2 = cb := by
    rw [hcb] at hcb2
    exact (Except.ok.injEq _ _).mp hcb2.symm
  subst hcbeq
  rcases hcase with ⟨hle, hout⟩ | ⟨hover, md2, hmd2, hloop⟩
  · rw [Prod.mk.injEq] at hout
    intro k hk
    rw [hout.2] at hk
    simp at hk
  · have hmdeq : md2 = md := by
      rw [hmd] at hmd2
      exact (Except.ok.injEq _ _).mp hmd2.symm
    subst hmdeq
    obtain ⟨ext, htr, hsteps⟩ :=
      resizeLoop_steps C (restOptions o) (o.targetSizeKB.getD 1024) cb2
        (jsOrNat md2.width (o.maxWidth.getD 2048))
        (jsOrNat md2.height (o.maxHeight.getD 2048)) 9 r0 (9/10) [] r tr hloop
    simp only [List.nil_append] at htr
    subst htr
    exact hsteps

/-- C9 (witness): the single iteration of the concrete run used scale
0.9 and resized the constrained buffer to 9 by 9. -/
theorem c9_resize_from_constrained_buffer_witness :
    (c9Trace.get ⟨0, by rw [c9Trace]; exact Nat.zero_lt_one⟩).scale
      = 9/10 - ((0 : ℕ) : ℚ)/10
    ∧ (c9Trace.get ⟨0, by rw [c9Trace]; exact Nat.zero_lt_one⟩).newWidth
        = scaledDim (jsOrNat (Metadata.mk (some 10) (some 10)).width
            (c9Opts.maxWidth.getD 2048)) (9/10 - ((0 : ℕ) : ℚ)/10)
    ∧ (c9Trace.get ⟨0, by rw [c9Trace]; exact Nat.zero_lt_one⟩).newHeight
        = scaledDim (jsOrNat (Metadata.mk (some 10) (some 10)).height
            (c9Opts.maxHeight.getD 2048)) (9/10 - ((0 : ℕ) : ℚ)/10)
    ∧ c9Codec.resize [0] (some (c9Trace.get ⟨0, by rw [c9Trace]; exact Nat.zero_lt_one⟩).newWidth)
        (some (c9Trace.get ⟨0, by rw [c9Trace]; exact Nat.zero_lt_one⟩).newHeight)
        = .ok (c9Trace.get ⟨0, by rw [c9Trace]; exact Nat.zero_lt_one⟩).buffer := by
  have hrun : compressWithResizeT c9Codec [0] c9Opts = .ok (c9Result, c9Trace) := by
    norm_num only [c9Codec, c9Opts, c9Result, c9Trace, ok_bind, error_bind, map_ok, map_error, Option.getD_some, Option.getD_none,
    ite_true, ite_false, ite_self, false_eq_true_iff, true_eq_true_iff,
    eq_self_iff_true, Bool.not_false, Bool.not_true, Bool.and_true, Bool.true_and,
    Bool.and_false, Bool.false_and, List.length_replicate, List.length_cons,
    List.length_nil, List.cons_append, List.nil_append, List.append_nil,
    List.cons.injEq, and_true, true_and, and_false, false_and, Nat.max_def,
    Int.toNat_ofNat, intToNat_lit4, intToNat_lit5, intToNat_lit6,
    intToNat_lit7, intToNat_lit8, intToNat_lit9, scaledDim, jsOrNat, compressWithResizeT, restOptions,
    resizeToFitDimensions, truthyNat, exceedsDim, compressToSizeT, mkResult]
    iterate 2 (rw [searchLoop.eq_def]; norm_num only [c9Codec, c9Result, ok_bind, error_bind, map_ok, map_error, Option.getD_some, Option.getD_none,
    ite_true, ite_false, ite_self, false_eq_true_iff, true_eq_true_iff,
    eq_self_iff_true, Bool.not_false, Bool.not_true, Bool.and_true, Bool.true_and,
    Bool.and_false, Bool.false_and, List.length_replicate, List.length_cons,
    List.length_nil, List.cons_append, List.nil_append, List.append_nil,
    List.cons.injEq, and_true, true_and, and_false, false_and, Nat.max_def,
    Int.toNat_ofNat, intToNat_lit4, intToNat_lit5, intToNat_lit6,
    intToNat_lit7, intToNat_lit8, intToNat_lit9, scaledDim, jsOrNat, compressWithResizeT, restOptions,
    resizeToFitDimensions, truthyNat, exceedsDim, compressToSizeT, mkResult])
    rw [resizeLoop.eq_def]
    norm_num only [c9Codec, c9Result, ok_bind, error_bind, map_ok, map_error, Option.getD_some, Option.getD_none,
    ite_true, ite_false, ite_self, false_eq_true_iff, true_eq_true_iff,
    eq_self_iff_true, Bool.not_false, Bool.not_true, Bool.and_true, Bool.true_and,
    Bool.and_false, Bool.false_and, List.length_replicate, List.length_cons,
    List.length_nil, List.cons_append, List.nil_append, List.append_nil,
    List.cons.injEq, and_true, true_and, and_false, false_and, Nat.max_def,
    Int.toNat_ofNat, intToNat_lit4, intToNat_lit5, intToNat_lit6,
    intToNat_lit7, intToNat_lit8, intToNat_lit9, scaledDim, jsOrNat, compressWithResizeT, restOptions,
    resizeToFitDimensions, truthyNat, exceedsDim, compressToSizeT, mkResult]
    iterate 2 (rw [searchLoop.eq_def]; norm_num only [c9Codec, c9Result, ok_bind, error_bind, map_ok, map_error, Option.getD_some, Option.getD_none,
    ite_true, ite_false, ite_self, false_eq_true_iff, true_eq_true_iff,
    eq_self_iff_true, Bool.not_false, Bool.not_true, Bool.and_true, Bool.true_and,
    Bool.and_false, Bool.false_and, List.length_replicate, List.length_cons,
    List.length_nil, List.cons_append, List.nil_append, List.append_nil,
    List.cons.injEq, and_true, true_and, and_false, false_and, Nat.max_def,
    Int.toNat_ofNat, intToNat_lit4, intToNat_lit5, intToNat_lit6,
    intToNat_lit7, intToNat_lit8, intToNat_lit9, scaledDim, jsOrNat, compressWithResizeT, restOptions,
    resizeToFitDimensions, truthyNat, exceedsDim, compressToSizeT, mkResult])
    rw [resizeLoop.eq_def]
    norm_num only [c9Codec, c9Result, c9Trace, ok_bind, error_bind, map_ok, map_error, Option.getD_some, Option.getD_none,
    ite_true, ite_false, ite_self, false_eq_true_iff, true_eq_true_iff,
    eq_self_iff_true, Bool.not_false, Bool.not_true, Bool.and_true, Bool.true_and,
    Bool.and_false, Bool.false_and, List.length_replicate, List.length_cons,
    List.length_nil, List.cons_append, List.nil_append, List.append_nil,
    List.cons.injEq, and_true, true_and, and_false, false_and, Nat.max_def,
    Int.toNat_ofNat, intToNat_lit4, intToNat_lit5, intToNat_lit6,
    intToNat_lit7, intToNat_lit8, intToNat_lit9, scaledDim, jsOrNat, compressWithResizeT, restOptions,
    resizeToFitDimensions, truthyNat, exceedsDim, compressToSizeT, mkResult]
  have hcb : resizeToFitDimensions c9Codec [0] (some (c9Opts.maxWidth.getD 2048))
      (some (c9Opts.maxHeight.getD 2048)) = .ok [0] := by
    norm_num only [c9Codec, c9Opts, ok_bind, error_bind, map_ok, map_error, Option.getD_some, Option.getD_none,
    ite_true, ite_false, ite_self, false_eq_true_iff, true_eq_true_iff,
    eq_self_iff_true, Bool.not_false, Bool.not_true, Bool.and_true, Bool.true_and,
    Bool.and_false, Bool.false_and, List.length_replicate, List.length_cons,
    List.length_nil, List.cons_append, List.nil_append, List.append_nil,
    List.cons.injEq, and_true, true_and, and_false, false_and, Nat.max_def,
    Int.toNat_ofNat, intToNat_lit4, intToNat_lit5, intToNat_lit6,
    intToNat_lit7, intToNat_lit8, intToNat_lit9, scaledDim, jsOrNat, compressWithResizeT, restOptions,
    resizeToFitDimensions, truthyNat, exceedsDim, compressToSizeT, mkResult]
  have hmd : c9Codec.metadata [0] = .ok (Metadata.mk (some 10) (some 10)) := rfl
  exact c9_resize_from_constrained_buffer c9Codec [0] c9Opts c9Result c9Trace
    [0] (Metadata.mk (some 10) (some 10)) hrun hcb hmd 0
    (by rw [c9Trace]; exact Nat.zero_lt_one)

/-- C7: with a codec that never throws, the orchestrator always returns
a result — an unattainable target is not an error — and when every
encoder output exceeds the configured target, the returned result simply
reports `sizeKB` above the target. -/
theorem c7_best_effort_result (C : Codec) (b : Buffer)
    (o : CompressionOptions)
    (henc : ∀ bi q fm, ∃ out, C.compressBuffer bi q fm = .ok out)
    (hres : ∀ bi w h2, ∃ out, C.resize bi w h2 = .ok out)
    (hmd : ∀ bi, ∃ m, C.metadata bi = .ok m)
    (hbig : ∀ bi q out, C.compressBuffer bi q (o.format.getD .png) = .ok out →
      o.targetSizeKB.getD 1024 < (out.length : ℚ) / 1024) :
    ∃ r tr, compressWithResizeT C b o = .ok (r, tr)
      ∧ o.targetSizeKB.getD 1024 < r.sizeKB := by
  obtain ⟨⟨r, tr⟩, hrun⟩ := compressWithResizeT_total C b o henc hres hmd
  refine ⟨r, tr, hrun, ?_⟩
  obtain ⟨cb, r0, tr0, hcb, hct, hcase⟩ := compressWithResizeT_ok_elim hrun
  have hfromsearch : ∀ (bi : Buffer) (r2 : CompressionResult) (tr2 : List ℚ),
      compressToSizeT C bi (restOptions o) = .ok (r2, tr2) →
      o.targetSizeKB.getD 1024 < r2.sizeKB := by
    intro bi r2 tr2 hct2
    have hs := compressToSizeT_spec C bi (restOptions o) r2 tr2 hct2
    rw [hs.2.2.2.1]
    exact hbig bi r2.quality r2.base64 hs.2.2.1
  rcases hcase with ⟨hle, hout⟩ | ⟨hover, md, hmd2, hloop⟩
  · rw [Prod.mk.injEq] at hout
    rw [hout.1]
    exact hfromsearch cb r0 tr0 hct
  · obtain ⟨ext, htr, hnil, hov2, hlast, hall, hprov⟩ :=
      resizeLoop_spec C (restOptions o) (o.targetSizeKB.getD 1024) cb
        (jsOrNat md.width (o.maxWidth.getD 2048))
        (jsOrNat md.height (o.maxHeight.getD 2048)) 9 r0 (9/10) [] r tr hloop
    by_cases hext : ext = []
    · rw [hnil hext]
      exact hfromsearch cb r0 tr0 hct
    · obtain ⟨st, hst1, hst2⟩ := Option.map_eq_some'.mp (hlast hext)
      have hmem : st ∈ ext := List.mem_of_getLast?_eq_some hst1
      obtain ⟨tr3, hprov3⟩ := hprov st hmem
      rw [← hst2]
      exact hfromsearch st.buffer st.result tr3 hprov3

/-- C7 (witness): a total codec always emitting 2 bytes against a 1-byte
target still yields a result, whose size exceeds the target. -/
theorem c7_best_effort_result_witness :
    ∃ r tr, compressWithResizeT c7Codec [0] c7Opts = .ok (r, tr)
      ∧ c7Opts.targetSizeKB.getD 1024 < r.sizeKB := by
  refine c7_best_effort_result c7Codec [0] c7Opts
    (fun bi q fm => ⟨[0, 0], rfl⟩) (fun bi w h2 => ⟨[0], rfl⟩)
    (fun bi => ⟨⟨some 4, some 4⟩, rfl⟩) ?_
  intro bi q out h
  have hout : out = [0, 0] := ((Except.ok.injEq _ _).mp h).symm
  subst hout
  norm_num only [c7Opts, List.length_cons, List.length_nil,
    Option.getD_some, Option.getD_none]

/-- C1: evaluation at the failing input.  The service configures a
target of `400/1024` KB, every encode produces 800 bytes
(`800/1024` KB `>` target), yet the quality search records these
oversize candidates as `best` (returning quality 11, the top of the
interval, instead of falling back to `minQuality` 10), because
`compressWithResize` strips `targetSizeKB` from the options it forwards
and the inner search therefore compares against its own 1024 KB
default. -/
theorem c1_quality_search_ignores_configured_target :
    c1Options.targetSizeKB = some (400/1024)
    ∧ (compressWithResize c1Codec [0] c1Options).map
        (fun r => (r.quality, r.sizeKB)) = .ok (11, 800/1024)
    ∧ ¬ ((800:ℚ)/1024 ≤ 400/1024) := by
  refine ⟨rfl, ?_, by norm_num⟩
  norm_num only [compressWithResize, c1Codec, c1Options, ok_bind, error_bind, map_ok, map_error, Option.getD_some, Option.getD_none,
    ite_true, ite_false, ite_self, false_eq_true_iff, true_eq_true_iff,
    eq_self_iff_true, Bool.not_false, Bool.not_true, Bool.and_true, Bool.true_and,
    Bool.and_false, Bool.false_and, List.length_replicate, List.length_cons,
    List.length_nil, List.cons_append, List.nil_append, List.append_nil,
    List.cons.injEq, and_true, true_and, and_false, false_and, Nat.max_def,
    Int.toNat_ofNat, intToNat_lit4, intToNat_lit5, intToNat_lit6,
    intToNat_lit7, intToNat_lit8, intToNat_lit9, scaledDim, jsOrNat, compressWithResizeT, restOptions,
    resizeToFitDimensions, truthyNat, exceedsDim, compressToSizeT, mkResult]
  iterate 3 (rw [searchLoop.eq_def]; norm_num only [c1Codec, ok_bind, error_bind, map_ok, map_error, Option.getD_some, Option.getD_none,
    ite_true, ite_false, ite_self, false_eq_true_iff, true_eq_true_iff,
    eq_self_iff_true, Bool.not_false, Bool.not_true, Bool.and_true, Bool.true_and,
    Bool.and_false, Bool.false_and, List.length_replicate, List.length_cons,
    List.length_nil, List.cons_append, List.nil_append, List.append_nil,
    List.cons.injEq, and_true, true_and, and_false, false_and, Nat.max_def,
    Int.toNat_ofNat, intToNat_lit4, intToNat_lit5, intToNat_lit6,
    intToNat_lit7, intToNat_lit8, intToNat_lit9, scaledDim, jsOrNat, compressWithResizeT, restOptions,
    resizeToFitDimensions, truthyNat, exceedsDim, compressToSizeT, mkResult])
  iterate 6 (rw [resizeLoop.eq_def]
             norm_num only [c1Codec, ok_bind, error_bind, map_ok, map_error, Option.getD_some, Option.getD_none,
    ite_true, ite_false, ite_self, false_eq_true_iff, true_eq_true_iff,
    eq_self_iff_true, Bool.not_false, Bool.not_true, Bool.and_true, Bool.true_and,
    Bool.and_false, Bool.false_and, List.length_replicate, List.length_cons,
    List.length_nil, List.cons_append, List.nil_append, List.append_nil,
    List.cons.injEq, and_true, true_and, and_false, false_and, Nat.max_def,
    Int.toNat_ofNat, intToNat_lit4, intToNat_lit5, intToNat_lit6,
    intToNat_lit7, intToNat_lit8, intToNat_lit9, scaledDim, jsOrNat, compressWithResizeT, restOptions,
    resizeToFitDimensions, truthyNat, exceedsDim, compressToSizeT, mkResult]
             iterate 3 (rw [searchLoop.eq_def]; norm_num only [c1Codec, ok_bind, error_bind, map_ok, map_error, Option.getD_some, Option.getD_none,
    ite_true, ite_false, ite_self, false_eq_true_iff, true_eq_true_iff,
    eq_self_iff_true, Bool.not_false, Bool.not_true, Bool.and_true, Bool.true_and,
    Bool.and_false, Bool.false_and, List.length_replicate, List.length_cons,
    List.length_nil, List.cons_append, List.nil_append, List.append_nil,
    List.cons.injEq, and_true, true_and, and_false, false_and, Nat.max_def,
    Int.toNat_ofNat, intToNat_lit4, intToNat_lit5, intToNat_lit6,
    intToNat_lit7, intToNat_lit8, intToNat_lit9, scaledDim, jsOrNat, compressWithResizeT, restOptions,
    resizeToFitDimensions, truthyNat, exceedsDim, compressToSizeT, mkResult]))
  rw [resizeLoop.eq_def]
  norm_num only [c1Codec, ok_bind, error_bind, map_ok, map_error, Option.getD_some, Option.getD_none,
    ite_true, ite_false, ite_self, false_eq_true_iff, true_eq_true_iff,
    eq_self_iff_true, Bool.not_false, Bool.not_true, Bool.and_true, Bool.true_and,
    Bool.and_false, Bool.false_and, List.length_replicate, List.length_cons,
    List.length_nil, List.cons_append, List.nil_append, List.append_nil,
    List.cons.injEq, and_true, true_and, and_false, false_and, Nat.max_def,
    Int.toNat_ofNat, intToNat_lit4, intToNat_lit5, intToNat_lit6,
    intToNat_lit7, intToNat_lit8, intToNat_lit9, scaledDim, jsOrNat, compressWithResizeT, restOptions,
    resizeToFitDimensions, truthyNat, exceedsDim, compressToSizeT, mkResult]


end ImageCompression
